import Mathlib

/-!
Verification development for the grisera-core-mongo data-access layer.

Documents are modelled as association lists of (field name, value) pairs,
mirroring the Python dicts the services manipulate.  Machine integers do not
occur on the verified paths; numeric model fields are embedded as rationals.
-/

set_option maxHeartbeats 1000000

namespace GriseraSpec

/-- Value stored in a document field: the forms that occur in mongo documents
and in the service layer (None, str, ObjectId, numbers, booleans, arrays,
nested documents, and the NotFoundByIdModel sentinel that services attach in
place of a missing neighbour). -/
inductive Val : Type where
  | null : Val
  | str : String → Val
  | oid : String → Val
  | num : ℚ → Val
  | bool : Bool → Val
  | arr : List Val → Val
  | doc : List (String × Val) → Val
  | nf : String → Val
  deriving Repr

/-- A document is a Python dict: an ordered association list of fields. -/
abbrev Doc := List (String × Val)

mutual

/-- Structural equality test for values (deriving cannot handle the nested
lists, so it is written out). -/
def Val.beq : Val → Val → Bool
  | .null, .null => true
  | .str a, .str b => a == b
  | .oid a, .oid b => a == b
  | .num a, .num b => a == b
  | .bool a, .bool b => a == b
  | .arr a, .arr b => Val.beqList a b
  | .doc a, .doc b => Val.beqFields a b
  | .nf a, .nf b => a == b
  | _, _ => false

/-- Equality test for value lists. -/
def Val.beqList : List Val → List Val → Bool
  | [], [] => true
  | a :: as_, b :: bs => Val.beq a b && Val.beqList as_ bs
  | _, _ => false

/-- Equality test for field lists. -/
def Val.beqFields : List (String × Val) → List (String × Val) → Bool
  | [], [] => true
  | (k, v) :: as_, (k2, v2) :: bs => k == k2 && Val.beq v v2 && Val.beqFields as_ bs
  | _, _ => false

end

instance : BEq Val := ⟨Val.beq⟩

mutual

theorem Val.beq_iff : ∀ a b : Val, Val.beq a b = true ↔ a = b
  | .null, b => by cases b <;> simp [Val.beq]
  | .str s, b => by cases b <;> simp [Val.beq]
  | .oid s, b => by cases b <;> simp [Val.beq]
  | .num q, b => by cases b <;> simp [Val.beq]
  | .bool v, b => by cases b <;> simp [Val.beq]
  | .arr l, b => by
      cases b <;> simp [Val.beq] <;> exact Val.beqList_iff l _
  | .doc d, b => by
      cases b <;> simp [Val.beq] <;> exact Val.beqFields_iff d _
  | .nf s, b => by cases b <;> simp [Val.beq]

theorem Val.beqList_iff : ∀ a b : List Val, Val.beqList a b = true ↔ a = b
  | [], b => by cases b <;> simp [Val.beqList]
  | a :: as_, [] => by simp [Val.beqList]
  | a :: as_, b :: bs => by
      simp only [Val.beqList, Bool.and_eq_true, List.cons.injEq]
      rw [Val.beq_iff a b, Val.beqList_iff as_ bs]

theorem Val.beqFields_iff : ∀ a b : List (String × Val), Val.beqFields a b = true ↔ a = b
  | [], b => by cases b <;> simp [Val.beqFields]
  | a :: as_, [] => by simp [Val.beqFields]
  | (k, v) :: as_, (k2, v2) :: bs => by
      simp only [Val.beqFields, Bool.and_eq_true, List.cons.injEq, Prod.mk.injEq, beq_iff_eq]
      rw [Val.beq_iff v v2, Val.beqFields_iff as_ bs]

end

instance : DecidableEq Val := fun a b => decidable_of_iff _ (Val.beq_iff a b)

namespace Doc

/-- Lookup of a field (first occurrence), `d.get(k)` / `d[k]`. -/
def get? (d : Doc) (k : String) : Option Val :=
  (d.find? (fun p => p.1 == k)).map (·.2)

/-- Field read that defaults to null; stored documents produced through the
pydantic models always carry all of their model fields, so a read of a model
field never hits the KeyError case. -/
def fget (d : Doc) (k : String) : Val :=
  (d.get? k).getD Val.null

/-- Python `k in d`. -/
def hasKey (d : Doc) (k : String) : Bool :=
  d.any (fun p => p.1 == k)

/-- Python dict assignment `d[k] = v`: replaces the value in place if the key
exists, otherwise appends the new field at the end. -/
def set (d : Doc) (k : String) (v : Val) : Doc :=
  if d.hasKey k then d.map (fun p => if p.1 == k then (k, v) else p)
  else d ++ [(k, v)]

/-- Python `del d[k]`. -/
def erase (d : Doc) (k : String) : Doc :=
  d.filter (fun p => p.1 ≠ k)

end Doc

/-- Python `value is None`. -/
def Val.isNull : Val → Bool
  | .null => true
  | _ => false

/-- String content of a value holding an id (used where the services read a
foreign-id field that is known to be a string). -/
def Val.asStr : Val → String
  | .str s => s
  | .oid s => s
  | _ => ""

/-- Document content of a value known to hold a document. -/
def Val.getDoc : Val → Doc
  | .doc d => d
  | _ => []

/-- List content of a value known to hold an array. -/
def Val.getArr : Val → List Val
  | .arr l => l
  | _ => []

/-! ## Document Store Adapter: id-field conversion (mongo_api_service.py) -/

/-- Hex digit in either case, as accepted by bson ObjectId parsing. -/
def isHexChar (c : Char) : Bool :=
  c.isDigit || ('a' ≤ c && c ≤ 'f') || ('A' ≤ c && c ≤ 'F')

/-- A valid ObjectId literal: 24 hexadecimal characters (the string form of a
12-byte id). -/
def isValidObjectId (s : String) : Bool :=
  s.length == 24 && s.data.all isHexChar

/-- Lowercasing of the hex letters of an id string (the canonicalisation that
`str(ObjectId(s))` performs on a valid id literal). -/
def hexLowerChar (c : Char) : Char :=
  if 'A' ≤ c && c ≤ 'F' then Char.ofNat (c.toNat + 32) else c

/-- Canonical (lowercase-hex) form of an id string. -/
def hexToLower (s : String) : String :=
  ⟨s.data.map hexLowerChar⟩

/-- Python `ObjectId(value)`: parses a 24-hex-char string into the internal
binary id (canonical form: lowercase hex), accepts an ObjectId unchanged, and
raises InvalidId / TypeError otherwise.  Errors are modelled with Except. -/
def objectIdOfVal : Val → Except String Val
  | .str s => if isValidObjectId s then .ok (.oid (hexToLower s)) else .error "InvalidId"
  | .oid s => .ok (.oid s)
  | _ => .error "TypeError"

/-- MongoApiService._field_is_id: `field == "id" or field[-3:] in ("_id", ".id")`. -/
def _field_is_id (field : String) : Bool :=
  field == "id" || field.takeRight 3 == "_id" || field.takeRight 3 == ".id"

/-- The per-field input conversion from _fix_input_ids: id-marker fields that
are not None are passed through ObjectId. -/
def fix_input_id (field : String) (value : Val) : Except String Val :=
  if _field_is_id field && !value.isNull then objectIdOfVal value
  else .ok value

/-- The per-field output conversion from _fix_output_ids: id-marker fields
that are not None are passed through `str(...)`; on the value forms occurring
in adapter output (ObjectId or str) that is the hex string / the string
itself. -/
def fix_output_id (field : String) (value : Val) : Val :=
  if _field_is_id field && !value.isNull then
    match value with
    | .oid s => .str s
    | .str s => .str s
    | v => v
  else value

mutual

/-- Treatment of one field value in _mongo_object_deep_iterate: dict values
recurse, list values are iterated, all other values go through `func`. -/
def deep_iterate_val (func : String → Val → Except String Val) (k : String) : Val → Except String Val
  | .doc d =>
    match deep_iterate_doc func d with
    | .ok d2 => .ok (.doc d2)
    | .error e => .error e
  | .arr l =>
    match deep_iterate_arr func l with
    | .ok l2 => .ok (.arr l2)
    | .error e => .error e
  | v => func k v

/-- MongoApiService._mongo_object_deep_iterate, fallible (input) version,
over a document. -/
def deep_iterate_doc (func : String → Val → Except String Val) : Doc → Except String Doc
  | [] => .ok []
  | (k, v) :: rest =>
    match deep_iterate_val func k v, deep_iterate_doc func rest with
    | .ok v2, .ok rest2 => .ok ((k, v2) :: rest2)
    | .error e, _ => .error e
    | .ok _, .error e => .error e

/-- Treatment of one list element: _mongo_object_deep_iterate returns
immediately on non-dicts, so only dict elements are entered. -/
def deep_iterate_elem (func : String → Val → Except String Val) : Val → Except String Val
  | .doc d =>
    match deep_iterate_doc func d with
    | .ok d2 => .ok (.doc d2)
    | .error e => .error e
  | v => .ok v

/-- List part of _mongo_object_deep_iterate. -/
def deep_iterate_arr (func : String → Val → Except String Val) : List Val → Except String (List Val)
  | [] => .ok []
  | v :: rest =>
    match deep_iterate_elem func v, deep_iterate_arr func rest with
    | .ok v2, .ok rest2 => .ok (v2 :: rest2)
    | .error e, _ => .error e
    | .ok _, .error e => .error e

end

mutual

/-- Total (output) treatment of one field value. -/
def deep_iterate_val_out (func : String → Val → Val) (k : String) : Val → Val
  | .doc d => Val.doc (deep_iterate_doc_out func d)
  | .arr l => Val.arr (deep_iterate_arr_out func l)
  | v => func k v

/-- Total (output) version of _mongo_object_deep_iterate over a document. -/
def deep_iterate_doc_out (func : String → Val → Val) : Doc → Doc
  | [] => []
  | (k, v) :: rest => (k, deep_iterate_val_out func k v) :: deep_iterate_doc_out func rest

/-- Total treatment of one list element (only dicts are entered). -/
def deep_iterate_elem_out (func : String → Val → Val) : Val → Val
  | .doc d => Val.doc (deep_iterate_doc_out func d)
  | v => v

/-- Total list part of _mongo_object_deep_iterate. -/
def deep_iterate_arr_out (func : String → Val → Val) : List Val → List Val
  | [] => []
  | v :: rest => deep_iterate_elem_out func v :: deep_iterate_arr_out func rest

end

/-- MongoApiService._fix_input_ids. -/
def _fix_input_ids (d : Doc) : Except String Doc :=
  deep_iterate_doc fix_input_id d

/-- MongoApiService._fix_output_ids. -/
def _fix_output_ids (d : Doc) : Doc :=
  deep_iterate_doc_out fix_output_id d

/-- MongoApiService._update_mongo_output_id: rename `_id` to `id` (stringified)
and convert the remaining id fields. -/
def _update_mongo_output_id (d : Doc) : Doc :=
  let d :=
    if d.hasKey "_id" then
      (d.set "id" (fix_output_id "id" (d.fget "_id"))).erase "_id"
    else d
  _fix_output_ids d

/-- MongoApiService._update_mongo_input_id: rename `id` to `_id` (as ObjectId)
and convert the remaining id fields. -/
def _update_mongo_input_id (d : Doc) : Except String Doc :=
  if d.hasKey "id" then
    match objectIdOfVal (d.fget "id") with
    | .error e => .error e
    | .ok v => _fix_input_ids ((d.set "_id" v).erase "id")
  else _fix_input_ids d

/-! ## Document Store Adapter: lookups (mongo_api_service.py) -/

/-- The multi-tenant store: dataset name → collection name → stored documents
(internal form, `_id` as ObjectId). -/
def MongoClient := String → String → List Doc

/-- Default/shared metadata database name (mongodb_api_config.py:
`os.environ.get("MONGO_DATABASE") or "road"`). -/
def mongo_database_name : String := "road"

/-- Result of a pymongo equality find on the used query shapes: every query
field must be equal to the stored field.  (The store itself is an external
collaborator; this models the equality matching the adapter relies on.) -/
def queryMatches (query : Doc) (d : Doc) : Bool :=
  query.all (fun p => d.get? p.1 == some p.2)

/-- MongoApiService.get_document: `ObjectId(id)` is evaluated first (raising
InvalidId on a malformed literal), then the collection in the given dataset is
searched by `_id`; a missing document yields the NotFoundByIdModel sentinel,
a found one is converted to output form. -/
def get_document (client : MongoClient) (id collection_name dataset_id : String) :
    Except String Val :=
  match objectIdOfVal (.str id) with
  | .error e => .error e
  | .ok oidv =>
    match (client dataset_id collection_name).find? (fun d => d.get? "_id" == some oidv) with
    | none => .ok (.nf id)
    | some result_dict => .ok (.doc (_update_mongo_output_id result_dict))

/-- MongoApiService.get_documents: the empty-string dataset id is silently
replaced by the default database name before the query runs. -/
def get_documents (client : MongoClient) (collection_name dataset_id : String)
    (query : Doc) : Except String (List Doc) :=
  let dataset_id := if dataset_id == "" then mongo_database_name else dataset_id
  match _fix_input_ids query with
  | .error e => .error e
  | .ok fixed_query =>
    let results := (client dataset_id collection_name).filter (queryMatches fixed_query)
    .ok (results.map _update_mongo_output_id)

/-- MongoApiService.create_document_from_dict: converts id fields of the input
dict, then inserts into the collection of the dataset exactly as given (no
empty-string substitution).  The freshly generated ObjectId is passed in
explicitly; the returned string is that id. -/
def create_document_from_dict (client : MongoClient) (document_dict : Doc)
    (collection_name dataset_id : String) (freshId : String) :
    Except String (String × MongoClient) :=
  match _fix_input_ids document_dict with
  | .error e => .error e
  | .ok fixed =>
    let inserted := fixed.set "_id" (.oid freshId)
    let client2 : MongoClient := fun ds c =>
      if ds == dataset_id && c == collection_name then client ds c ++ [inserted]
      else client ds c
    .ok (freshId, client2)

/-! ## Id-conversion round-trip (claim C9) -/

mutual

/-- A field value (external form) that survives the conversion round trip:
at an id-marker field a scalar must be None or a valid lowercase-hex id
string; nested documents and lists recurse. -/
def good_input_val (k : String) : Val → Bool
  | .doc d => good_input_doc d
  | .arr l => good_input_arr l
  | .null => true
  | .str s => !(_field_is_id k) || (isValidObjectId s && hexToLower s == s)
  | _ => !(_field_is_id k)

/-- Input documents whose id-marker fields, at the positions the deep
iteration applies the conversion, hold round-trippable values. -/
def good_input_doc : Doc → Bool
  | [] => true
  | (k, v) :: rest => good_input_val k v && good_input_doc rest

/-- List elements: only dicts are visited, so everything else is good. -/
def good_input_elem : Val → Bool
  | .doc d => good_input_doc d
  | _ => true

/-- List counterpart of good_input_doc. -/
def good_input_arr : List Val → Bool
  | [] => true
  | v :: rest => good_input_elem v && good_input_arr rest

end

mutual

/-- Round trip of one field value. -/
theorem fix_roundtrip_val : ∀ (k : String) (v : Val), good_input_val k v = true →
    ∃ v2, deep_iterate_val fix_input_id k v = .ok v2 ∧ deep_iterate_val_out fix_output_id k v2 = v
  | k, .doc d, h => by
    obtain ⟨d2, h1, h2⟩ := fix_roundtrip_doc d h
    exact ⟨.doc d2, by simp [deep_iterate_val, h1], by simp [deep_iterate_val_out, h2]⟩
  | k, .arr l, h => by
    obtain ⟨l2, h1, h2⟩ := fix_roundtrip_arr l h
    exact ⟨.arr l2, by simp [deep_iterate_val, h1], by simp [deep_iterate_val_out, h2]⟩
  | k, .null, _ =>
    ⟨.null, by simp [deep_iterate_val, fix_input_id, Val.isNull],
      by simp [deep_iterate_val_out, fix_output_id, Val.isNull]⟩
  | k, .str s, h => by
    by_cases hk : _field_is_id k
    · simp only [good_input_val, hk, Bool.not_true, Bool.false_or, Bool.and_eq_true,
        beq_iff_eq] at h
      refine ⟨.oid s, ?_, ?_⟩
      · simp [deep_iterate_val, fix_input_id, Val.isNull, hk, objectIdOfVal, h.1, h.2]
      · simp [deep_iterate_val_out, fix_output_id, Val.isNull, hk]
    · refine ⟨.str s, ?_, ?_⟩
      · simp [deep_iterate_val, fix_input_id, Val.isNull, hk]
      · simp [deep_iterate_val_out, fix_output_id, Val.isNull, hk]
  | k, .oid s, h => by
    simp only [good_input_val, Bool.not_eq_true'] at h
    exact ⟨.oid s, by simp [deep_iterate_val, fix_input_id, Val.isNull, h],
      by simp [deep_iterate_val_out, fix_output_id, Val.isNull, h]⟩
  | k, .num q, h => by
    simp only [good_input_val, Bool.not_eq_true'] at h
    exact ⟨.num q, by simp [deep_iterate_val, fix_input_id, Val.isNull, h],
      by simp [deep_iterate_val_out, fix_output_id, Val.isNull, h]⟩
  | k, .bool b, h => by
    simp only [good_input_val, Bool.not_eq_true'] at h
    exact ⟨.bool b, by simp [deep_iterate_val, fix_input_id, Val.isNull, h],
      by simp [deep_iterate_val_out, fix_output_id, Val.isNull, h]⟩
  | k, .nf s, h => by
    simp only [good_input_val, Bool.not_eq_true'] at h
    exact ⟨.nf s, by simp [deep_iterate_val, fix_input_id, Val.isNull, h],
      by simp [deep_iterate_val_out, fix_output_id, Val.isNull, h]⟩

/-- Round trip over documents: on good input the input conversion succeeds and
the output conversion restores the original document. -/
theorem fix_roundtrip_doc : ∀ d : Doc, good_input_doc d = true →
    ∃ d2, deep_iterate_doc fix_input_id d = .ok d2 ∧ deep_iterate_doc_out fix_output_id d2 = d
  | [], _ => ⟨[], rfl, rfl⟩
  | (k, v) :: rest, h => by
    simp only [good_input_doc, Bool.and_eq_true] at h
    obtain ⟨v2, h1, h2⟩ := fix_roundtrip_val k v h.1
    obtain ⟨rest2, hr1, hr2⟩ := fix_roundtrip_doc rest h.2
    exact ⟨(k, v2) :: rest2, by simp [deep_iterate_doc, h1, hr1],
      by simp [deep_iterate_doc_out, h2, hr2]⟩

/-- Round trip of one list element. -/
theorem fix_roundtrip_elem : ∀ v : Val, good_input_elem v = true →
    ∃ v2, deep_iterate_elem fix_input_id v = .ok v2 ∧ deep_iterate_elem_out fix_output_id v2 = v
  | .doc d, h => by
    obtain ⟨d2, h1, h2⟩ := fix_roundtrip_doc d h
    exact ⟨.doc d2, by simp [deep_iterate_elem, h1], by simp [deep_iterate_elem_out, h2]⟩
  | .null, _ => ⟨.null, rfl, rfl⟩
  | .str s, _ => ⟨.str s, rfl, rfl⟩
  | .oid s, _ => ⟨.oid s, rfl, rfl⟩
  | .num q, _ => ⟨.num q, rfl, rfl⟩
  | .bool b, _ => ⟨.bool b, rfl, rfl⟩
  | .arr l, _ => ⟨.arr l, rfl, rfl⟩
  | .nf s, _ => ⟨.nf s, rfl, rfl⟩

/-- Round trip over value lists. -/
theorem fix_roundtrip_arr : ∀ l : List Val, good_input_arr l = true →
    ∃ l2, deep_iterate_arr fix_input_id l = .ok l2 ∧ deep_iterate_arr_out fix_output_id l2 = l
  | [], _ => ⟨[], rfl, rfl⟩
  | v :: rest, h => by
    simp only [good_input_arr, Bool.and_eq_true] at h
    obtain ⟨v2, h1, h2⟩ := fix_roundtrip_elem v h.1
    obtain ⟨rest2, hr1, hr2⟩ := fix_roundtrip_arr rest h.2
    exact ⟨v2 :: rest2, by simp [deep_iterate_arr, h1, hr1],
      by simp [deep_iterate_arr_out, h2, hr2]⟩

end

/-- Store with no documents anywhere. -/
def emptyClient : MongoClient := fun _ _ => []

/-- Store used to separate the empty-string dataset from the default one:
the dataset named "" holds one recording document, the default dataset holds
nothing. -/
def c10client : MongoClient := fun ds c =>
  if ds == "" && c == "recordings" then [[("_id", Val.oid "aaaaaaaaaaaaaaaaaaaaaaaa")]]
  else []

/-- Document with id-marker fields at several nesting levels, all holding
valid lowercase-hex id strings. -/
def c9exampleDoc : Doc :=
  [("id", .str "0123456789abcdef01234567"),
   ("name", .str "Bob"),
   ("participation_id", .null),
   ("nested", .doc [("registered_channel_id", .str "aaaaaaaaaaaaaaaaaaaaaaaa")]),
   ("items", .arr [.doc [("measure_id", .str "ffffffffffffffffffffffff")], .num 3])]

/-- C9, counterexample: the claim says every id-marker field is converted to
the internal binary id type "recursively through nested objects and lists,
including ids held inside lists", and that create-then-get returns the same
strings.  In the code, a bare id string inside a list value is left as a
string (the deep iteration only enters dict elements of lists), and an
uppercase-hex id string comes back lowercased, so the round trip changes it. -/
theorem C9_id_conversion_counterexample :
    (_fix_input_ids [("personality_ids", .arr [.str "aaaaaaaaaaaaaaaaaaaaaaaa"])] =
      .ok [("personality_ids", Val.arr [Val.str "aaaaaaaaaaaaaaaaaaaaaaaa"])]) ∧
    (_fix_input_ids [("participant_id", .str "AAAAAAAAAAAAAAAAAAAAAAAA")] =
      .ok [("participant_id", Val.oid "aaaaaaaaaaaaaaaaaaaaaaaa")]) ∧
    (_fix_output_ids [("participant_id", Val.oid "aaaaaaaaaaaaaaaaaaaaaaaa")] =
      [("participant_id", Val.str "aaaaaaaaaaaaaaaaaaaaaaaa")]) ∧
    Val.str "aaaaaaaaaaaaaaaaaaaaaaaa" ≠ Val.str "AAAAAAAAAAAAAAAAAAAAAAAA" :=
  ⟨rfl, rfl, rfl, by decide⟩

/-- C9, amended: on create, scalar id-marker fields are converted from their
external string form to the internal binary id type, recursing through nested
objects and through dict elements of lists (bare id strings inside list values
are left unchanged in both directions); on read they are converted back to
lowercase-hex strings; hence for every document whose id-marker scalar fields
hold None or valid lowercase-hex id strings, the create-side conversion
succeeds and the read-side conversion restores the original document. -/
theorem C9_id_conversion_roundtrip (d : Doc) (h : good_input_doc d = true) :
    ∃ d2, _fix_input_ids d = .ok d2 ∧ _fix_output_ids d2 = d :=
  fix_roundtrip_doc d h

/-- Witness for C9: the round trip evaluated on a concrete nested document. -/
theorem C9_id_conversion_roundtrip_witness :
    good_input_doc c9exampleDoc = true ∧
    ∃ d2, _fix_input_ids c9exampleDoc = .ok d2 ∧ _fix_output_ids d2 = c9exampleDoc :=
  ⟨by decide, C9_id_conversion_roundtrip c9exampleDoc (by decide)⟩

/-- C5, counterexample: the claim says a malformed id literal is caught and
mapped to NotFound; in the code `ObjectId(id)` raises InvalidId inside
get_document and nothing catches it, so the error propagates instead of a
NotFound sentinel being returned. -/
theorem C5_get_document_counterexample :
    get_document emptyClient "not-a-valid-id" "recordings" "ds" = .error "InvalidId" ∧
    get_document emptyClient "not-a-valid-id" "recordings" "ds" ≠ .ok (.nf "not-a-valid-id") := by
  have h1 : get_document emptyClient "not-a-valid-id" "recordings" "ds" = .error "InvalidId" := rfl
  refine ⟨h1, ?_⟩
  rw [h1]
  exact fun h => Except.noConfusion h

/-- C5, amended: for every well-formed id the lookup never throws: it returns
either the NotFound sentinel (carrying the offending id) or the document; a
malformed id literal instead raises the id-format error, which propagates out
of the store adapter uncaught. -/
theorem C5_get_document_notfound (client : MongoClient) (id c ds : String) :
    (isValidObjectId id = true →
      get_document client id c ds = .ok (.nf id) ∨
      ∃ d, get_document client id c ds = .ok (.doc d)) ∧
    (isValidObjectId id = false →
      get_document client id c ds = .error "InvalidId") := by
  constructor
  · intro hvalid
    simp only [get_document, objectIdOfVal, hvalid, if_true]
    cases hfind : (client ds c).find? (fun d => d.get? "_id" == some (.oid (hexToLower id))) with
    | none => left; simp [hfind]
    | some r => right; exact ⟨_update_mongo_output_id r, by simp [hfind]⟩
  · intro hinvalid
    simp [get_document, objectIdOfVal, hinvalid]

/-- Witness for C5: the amended theorem applied at a well-formed id that does
not resolve and at a malformed literal. -/
theorem C5_get_document_notfound_witness :
    (get_document emptyClient "aaaaaaaaaaaaaaaaaaaaaaaa" "recordings" "ds" =
      .ok (.nf "aaaaaaaaaaaaaaaaaaaaaaaa") ∨
     ∃ d, get_document emptyClient "aaaaaaaaaaaaaaaaaaaaaaaa" "recordings" "ds" = .ok (.doc d)) ∧
    get_document emptyClient "zzz" "recordings" "ds" = .error "InvalidId" :=
  ⟨(C5_get_document_notfound emptyClient "aaaaaaaaaaaaaaaaaaaaaaaa" "recordings" "ds").1 (by decide),
   (C5_get_document_notfound emptyClient "zzz" "recordings" "ds").2 (by decide)⟩

/-- C10: get_documents executed with the empty-string dataset id silently runs
against the default metadata database instead; get_document and
create_document_from_dict perform no such substitution, as shown on a store
whose ""-named dataset and default dataset differ. -/
theorem C10_empty_dataset_substitution :
    (∀ (client : MongoClient) (c : String) (q : Doc),
      get_documents client c "" q = get_documents client c mongo_database_name q) ∧
    (get_documents c10client "recordings" "" [] = .ok []) ∧
    (get_document c10client "aaaaaaaaaaaaaaaaaaaaaaaa" "recordings" "" =
      .ok (.doc [("id", .str "aaaaaaaaaaaaaaaaaaaaaaaa")])) ∧
    (get_document c10client "aaaaaaaaaaaaaaaaaaaaaaaa" "recordings" mongo_database_name =
      .ok (.nf "aaaaaaaaaaaaaaaaaaaaaaaa")) ∧
    (∃ cl2, create_document_from_dict c10client [] "recordings" "" "bbbbbbbbbbbbbbbbbbbbbbbb" =
        .ok ("bbbbbbbbbbbbbbbbbbbbbbbb", cl2) ∧
      cl2 "" "recordings" =
        [[("_id", Val.oid "aaaaaaaaaaaaaaaaaaaaaaaa")], [("_id", Val.oid "bbbbbbbbbbbbbbbbbbbbbbbb")]] ∧
      cl2 mongo_database_name "recordings" = []) := by
  refine ⟨fun client c q => rfl, rfl, rfl, rfl, ⟨_, rfl, rfl, rfl⟩⟩

/-! ## Per-entity services: the relationship-hydration system

The service layer works on documents in output form (ids as strings), so the
store is modelled per collection as a list of such documents and the internal
ObjectId comparisons of the Python code become string comparisons.  Collection
names are the values of the Collections enum (collection_mapping.py), and the
`source` argument carries such a value (the str-Enum members compare equal to
their string values).  `depth` is a Python int and can go negative.

Python reads a model field with `d["f"]`; stored documents produced through
the pydantic models always carry all model fields, so the read never raises
and is modelled by `Doc.fget` (null default).  Mongo queries appearing at the
call sites are translated to the corresponding predicates in place. -/

/-- The per-dataset document store seen by the services (one list of output
form documents per collection). -/
structure Db where
  activities : List Doc := []
  appearances : List Doc := []
  arrangements : List Doc := []
  channels : List Doc := []
  experiments : List Doc := []
  life_activities : List Doc := []
  measures : List Doc := []
  measure_names : List Doc := []
  modalities : List Doc := []
  participants : List Doc := []
  participations : List Doc := []
  personalities : List Doc := []
  recordings : List Doc := []
  registered_channels : List Doc := []
  registered_data : List Doc := []
  scenarios : List Doc := []
  timeSeries : List Doc := []

/-- Service-level lookup by id (mongo get_document in output form). -/
def findById (docs : List Doc) (id : String) : Option Doc :=
  docs.find? (fun d => d.fget "id" == Val.str id)

/-- Mongo inclusion projection used by the embedded-kind services: keeps the
id, the listed scalar fields and the embedded list, the latter reduced by
$elemMatch to its first matching element (and omitted when no element
matches); without an element query the whole embedded list is kept. -/
def projectParent (scalarFields : List String) (embeddedField : String)
    (elemQ : Option (Doc → Bool)) (d : Doc) : Doc :=
  match elemQ with
  | none => d.filter (fun p => p.1 == "id" || p.1 == embeddedField || scalarFields.contains p.1)
  | some q =>
    let base := d.filter (fun p => p.1 == "id" || scalarFields.contains p.1)
    match (d.fget embeddedField).getArr.find? (fun v => q v.getDoc) with
    | some v => base ++ [(embeddedField, Val.arr [v])]
    | none => base

/-- Mongo matching of one stored value against a query value: a query-side
array stands for the $in operator (membership); a scalar matches by equality,
or (for array fields) by some element being equal. -/
def field_value_matches (stored : Val) (v : Val) : Bool :=
  match v with
  | .arr l => l.contains stored
  | _ =>
    stored == v ||
      (match stored with
       | .arr l => l.contains v
       | _ => false)

/-- Match of one (possibly dotted) query path against a signal document; the
paths used are plain fields and metadata subfields. -/
def path_value_matches (path : String) (v : Val) (d : Doc) : Bool :=
  match path.splitOn "." with
  | [f] => field_value_matches (d.fget f) v
  | [f1, f2] => field_value_matches ((d.fget f1).getDoc.fget f2) v
  | _ => false

/-- Mongo $match of a query document against a time-series signal document. -/
def ts_doc_matches (q : Doc) (signal : Doc) : Bool :=
  q.all (fun p => path_value_matches p.1 p.2 signal)

/-- MongoApiService._time_series_documents_to_dict: the shared metadata block
of the group plus the signal values (`{"signal_values": ..., **metadata}`);
the SignalIn reconstruction of each signal is modelled by the signal document
without its metadata block. -/
def _time_series_documents_to_dict (group : List Doc) : Doc :=
  match group with
  | [] => []
  | d0 :: _ =>
    ("signal_values", Val.arr (group.map (fun d => Val.doc (d.erase "metadata")))) ::
      (d0.fget "metadata").getDoc

/-- MongoApiService._get_many_ts composed with the group conversion (the
query-params-free path of get_many_time_series): match the signal documents,
group them by metadata.id, convert each group. -/
def mongo_get_many_time_series (db : Db) (query : Doc) : List Doc :=
  let matching := db.timeSeries.filter (ts_doc_matches query)
  let ids := (matching.map (fun s => (s.fget "metadata").getDoc.fget "id")).dedup
  ids.map (fun i =>
    _time_series_documents_to_dict
      (matching.filter (fun s => (s.fget "metadata").getDoc.fget "id" == i)))

/-- Scenario collection query used by get_scenario_by_activity_execution:
scenarios whose nested activity-execution id lists contain the given id
(the scenario hydration hook is `pass`, so the mixin read is plain). -/
def scenario_find_by_activity_execution (db : Db) (ae_id : String) : List Doc :=
  db.scenarios.filter (fun s =>
    (s.fget "activity_executions").getArr.any (fun branch =>
      branch.getArr.contains (Val.str ae_id)))

/-- Scenario collection query used by the by-experiment reads. -/
def scenario_find_by_experiment (db : Db) (experiment_id : String) : List Doc :=
  db.scenarios.filter (fun s => s.fget "experiment_id" == Val.str experiment_id)

/-- Termination measure of the hydration system: every hop strictly decreases
`depth`, and at equal depth the calls move to strictly smaller tiers (t1 at
positive depth, t0 otherwise). -/
def hydMes (depth : Int) (t0 t1 : Nat) : Nat :=
  if 1 ≤ depth then 10 + 8 * depth.toNat + t1 else t0

/-- What get_scenario_by_element_id resolved the element id to (Python
distinguishes these by the runtime type of the related element). -/
inductive ElementKind : Type where
  | scenarioElem : ElementKind
  | experimentElem : ElementKind
  | activityExecutionElem : ElementKind
  | noneElem : ElementKind
  deriving Repr, DecidableEq

mutual

/-- RecordingServiceMongoDB._add_related_documents (with its three hop helpers
inlined in order): registered channel, participation, then the embedded
observable informations, each gated by the source check; the embedded hooks
receive the recording itself as the extra parameter. -/
def recording_add_related_documents (db : Db) (recording : Doc) (depth : Int) (source : String) : Doc :=
  if h : 0 < depth then
    let recording :=
      if source ≠ "registered_channels" ∧ (recording.fget "registered_channel_id").isNull = false then
        recording.set "registered_channel"
          (registered_channel_get_single_dict db (recording.fget "registered_channel_id").asStr
            (depth - 1) "recordings")
      else recording
    let recording :=
      if source ≠ "participations" ∧ (recording.fget "participation_id").isNull = false then
        recording.set "participation"
          (participation_get_single_dict db (recording.fget "participation_id").asStr
            (depth - 1) "recordings")
      else recording
    let recording :=
      if source ≠ "observable_informations" ∧ recording.hasKey "observable_informations" = true ∧
          (recording.fget "observable_informations").isNull = false then
        recording.set "observable_informations"
          (Val.arr ((recording.fget "observable_informations").getArr.map (fun oi =>
            Val.doc (observable_information_add_related_documents db oi.getDoc (depth - 1)
              "recordings" recording))))
      else recording
    recording
  else recording
termination_by hydMes depth 1 2
decreasing_by all_goals (simp only [hydMes]; split_ifs <;> omega)

/-- RegisteredChannelServiceMongoDB._add_related_documents: recordings (the
reverse edge), channel, registered data. -/
def registered_channel_add_related_documents (db : Db) (rc : Doc) (depth : Int) (source : String) : Doc :=
  if h : 0 < depth then
    let rc :=
      if source ≠ "recordings" then
        rc.set "recordings"
          (Val.arr ((recording_get_multiple db
            (fun r => r.fget "registered_channel_id" == rc.fget "id") none
            (depth - 1) "registered_channels").map Val.doc))
      else rc
    let rc :=
      if source ≠ "channels" ∧ (rc.fget "channel_id").isNull = false then
        rc.set "channel"
          (channel_get_single_dict db (rc.fget "channel_id").asStr (depth - 1) "registered_channels")
      else rc
    let rc :=
      if source ≠ "registered_data" ∧ (rc.fget "registered_data_id").isNull = false then
        rc.set "registered_data"
          (registered_data_get_single_dict db (rc.fget "registered_data_id").asStr
            (depth - 1) "registered_channels")
      else rc
    rc
  else rc
termination_by hydMes depth 1 2
decreasing_by all_goals (simp only [hydMes]; split_ifs <;> omega)

/-- ChannelServiceMongoDB._add_related_documents. -/
def channel_add_related_documents (db : Db) (channel : Doc) (depth : Int) (source : String) : Doc :=
  if source ≠ "registered_channels" then
    if h : 0 < depth then
      channel.set "registered_channels"
        (Val.arr ((registered_channel_get_multiple db
          (fun rc => rc.fget "channel_id" == channel.fget "id")
          (depth - 1) "channels").map Val.doc))
    else channel
  else channel
termination_by hydMes depth 1 2
decreasing_by all_goals (simp only [hydMes]; split_ifs <;> omega)

/-- RegisteredDataServiceMongoDB._add_related_documents. -/
def registered_data_add_related_documents (db : Db) (rd : Doc) (depth : Int) (source : String) : Doc :=
  if source ≠ "registered_channels" then
    if h : 0 < depth then
      rd.set "registered_channels"
        (Val.arr ((registered_channel_get_multiple db
          (fun rc => rc.fget "registered_data_id" == rd.fget "id")
          (depth - 1) "registered_data").map Val.doc))
    else rd
  else rd
termination_by hydMes depth 1 2
decreasing_by all_goals (simp only [hydMes]; split_ifs <;> omega)

/-- ParticipationServiceMongoDB._add_related_documents: recordings (reverse
edge), participant state, activity execution. -/
def participation_add_related_documents (db : Db) (participation : Doc) (depth : Int) (source : String) : Doc :=
  if h : 0 < depth then
    let participation :=
      if source ≠ "recordings" then
        participation.set "recordings"
          (Val.arr ((recording_get_multiple db
            (fun r => r.fget "participation_id" == participation.fget "id") none
            (depth - 1) "participations").map Val.doc))
      else participation
    let participation :=
      if source ≠ "participant_states" ∧ (participation.fget "participant_state_id").isNull = false then
        participation.set "participant_state"
          (participant_state_get_single_dict db (participation.fget "participant_state_id").asStr
            (depth - 1) "participations")
      else participation
    let participation :=
      if source ≠ "activity_executions" ∧ source ≠ "experiments" ∧
          (participation.fget "activity_execution_id").isNull = false then
        participation.set "activity_execution"
          (activity_execution_get_single_dict db (participation.fget "activity_execution_id").asStr
            (depth - 1) "activity_executions")
      else participation
    participation
  else participation
termination_by hydMes depth 1 2
decreasing_by all_goals (simp only [hydMes]; split_ifs <;> omega)

/-- ParticipantStateServiceMongoDB._add_related_documents: personalities,
appearances, participations, then the participant taken from the surrounding
get query (attached, not fetched). -/
def participant_state_add_related_documents (db : Db) (ps : Doc) (depth : Int) (source : String)
    (participant : Val) : Doc :=
  if h : 0 < depth then
    let ps :=
      if (ps.fget "personality_ids").isNull = false ∧ source ≠ "personalities" then
        ps.set "personalities"
          (Val.arr ((personality_get_multiple db
            (fun per => (ps.fget "personality_ids").getArr.contains (per.fget "id"))
            (depth - 1) "participant_states").map Val.doc))
      else ps
    let ps :=
      if (ps.fget "appearance_ids").isNull = false ∧ source ≠ "appearances" then
        ps.set "appearances"
          (Val.arr ((appearance_get_multiple db
            (fun ap => (ps.fget "appearance_ids").getArr.contains (ap.fget "id"))
            (depth - 1) "participant_states").map Val.doc))
      else ps
    let ps :=
      if source ≠ "participations" then
        ps.set "participations"
          (Val.arr ((participation_get_multiple db
            (fun par => par.fget "participant_state_id" == ps.fget "id")
            (depth - 1) "participant_states").map Val.doc))
      else ps
    let ps :=
      if source ≠ "participants" then ps.set "participant" participant else ps
    ps
  else ps
termination_by hydMes depth 1 2
decreasing_by all_goals (simp only [hydMes]; split_ifs <;> omega)

/-- ParticipantServiceMongoDB._add_related_documents: delegates to the hook of
every embedded participant state, passing itself as the participant. -/
def participant_add_related_documents (db : Db) (participant : Doc) (depth : Int) (source : String) : Doc :=
  if h : 0 < depth then
    if source ≠ "participant_states" ∧ (participant.fget "participant_states").isNull = false then
      participant.set "participant_states"
        (Val.arr ((participant.fget "participant_states").getArr.map (fun ps =>
          Val.doc (participant_state_add_related_documents db ps.getDoc (depth - 1)
            "participants" (Val.doc participant)))))
    else participant
  else participant
termination_by hydMes depth 1 2
decreasing_by all_goals (simp only [hydMes]; split_ifs <;> omega)

/-- PersonalityServiceMongoDB._add_related_documents /
_add_participant_states. -/
def personality_add_related_documents (db : Db) (personality : Doc) (depth : Int) (source : String) : Doc :=
  if h : 0 < depth then
    if source ≠ "participant_states" then
      personality.set "participant_states"
        (Val.arr ((participant_state_get_multiple db
          (some (fun ps => (ps.fget "personality_ids").getArr.contains (personality.fget "id")))
          (depth - 1) "personalities").map Val.doc))
    else personality
  else personality
termination_by hydMes depth 1 2
decreasing_by all_goals (simp only [hydMes]; split_ifs <;> omega)

/-- AppearanceServiceMongoDB._add_related_documents /
_add_participant_states. -/
def appearance_add_related_documents (db : Db) (appearance : Doc) (depth : Int) (source : String) : Doc :=
  if h : 0 < depth then
    if source ≠ "participant_states" then
      appearance.set "participant_states"
        (Val.arr ((participant_state_get_multiple db
          (some (fun ps => (ps.fget "appearance_ids").getArr.contains (appearance.fget "id")))
          (depth - 1) "appearances").map Val.doc))
    else appearance
  else appearance
termination_by hydMes depth 1 2
decreasing_by all_goals (simp only [hydMes]; split_ifs <;> omega)

/-- ActivityServiceMongoDB._add_related_documents: delegates to the hook of
every embedded activity execution, passing itself as the activity. -/
def activity_add_related_documents (db : Db) (activity : Doc) (depth : Int) (source : String) : Doc :=
  if h : 0 < depth then
    if source ≠ "activity_executions" ∧ activity.hasKey "activity_executions" = true ∧
        (activity.fget "activity_executions").isNull = false then
      activity.set "activity_executions"
        (Val.arr ((activity.fget "activity_executions").getArr.map (fun ae =>
          Val.doc (activity_execution_add_related_documents db ae.getDoc (depth - 1)
            "activities" activity))))
    else activity
  else activity
termination_by hydMes depth 1 2
decreasing_by all_goals (simp only [hydMes]; split_ifs <;> omega)

/-- ActivityExecutionServiceMongoDB._add_related_documents: an empty source is
replaced by the service's own kind; then arrangement, experiments (through the
scenarios containing the execution), participations (passing the incoming
source through), and the activity from the surrounding get query. -/
def activity_execution_add_related_documents (db : Db) (ae : Doc) (depth : Int) (source : String)
    (activity : Doc) : Doc :=
  let source := if source == "" then "activity_executions" else source
  if h : 0 < depth then
    let ae :=
      if source ≠ "arrangements" ∧ (ae.fget "arrangement_id").isNull = false then
        ae.set "arrangement"
          (arrangement_get_single_dict db (ae.fget "arrangement_id").asStr (depth - 1) source)
      else ae
    let ae :=
      if source ≠ "experiments" ∧ source ≠ "scenarios" then
        match scenario_get_scenario_by_activity_execution_multiple db (ae.fget "id").asStr depth source with
        | none => ae
        | some related_scenarios =>
          ae.set "experiments" (Val.arr (related_scenarios.map (fun s => s.fget "experiment")))
      else ae
    let ae :=
      if source ≠ "participations" then
        ae.set "participations"
          (Val.arr ((participation_get_multiple db
            (fun par => par.fget "activity_execution_id" == ae.fget "id")
            (depth - 1) source).map Val.doc))
      else ae
    let ae :=
      if source ≠ "activities" then ae.set "activity" (Val.doc activity) else ae
    ae
  else ae
termination_by hydMes depth 1 2
decreasing_by all_goals (simp only [hydMes]; split_ifs <;> omega)

/-- ArrangementServiceMongoDB._add_related_documents. -/
def arrangement_add_related_documents (db : Db) (arrangement : Doc) (depth : Int) (source : String) : Doc :=
  if source ≠ "activity_executions" then
    if h : 0 < depth then
      arrangement.set "activity_executions"
        (Val.arr ((activity_execution_get_multiple db
          (some (fun ae => ae.fget "arrangement_id" == arrangement.fget "id"))
          (depth - 1) "arrangements").map Val.doc))
    else arrangement
  else arrangement
termination_by hydMes depth 1 2
decreasing_by all_goals (simp only [hydMes]; split_ifs <;> omega)

/-- ExperimentServiceMongoDB._add_related_documents: returns unchanged at
non-positive depth or when called from the activity-execution/experiment side;
otherwise attaches the scenarios of the experiment (same depth, scenario read
decrements internally). -/
def experiment_add_related_documents (db : Db) (experiment : Doc) (depth : Int) (source : String) : Doc :=
  if h : 0 < depth then
    if source = "activity_executions" ∨ source = "experiments" then experiment
    else
      let source := if source == "" then "experiments" else source
      match scenario_get_scenarios_by_experiment db (experiment.fget "id").asStr depth source with
      | none => experiment
      | some related_scenario => experiment.set "scenarios" (Val.arr (related_scenario.map Val.doc))
  else experiment
termination_by hydMes depth 1 2
decreasing_by all_goals (simp only [hydMes]; split_ifs <;> omega)

/-- ObservableInformationServiceMongoDB._add_related_documents: time series,
modality, life activity, then the recording taken from the surrounding get
query (attached, not fetched). -/
def observable_information_add_related_documents (db : Db) (oi : Doc) (depth : Int) (source : String)
    (recording : Doc) : Doc :=
  if h : 0 < depth then
    let oi :=
      if source ≠ "timeSeries" then
        oi.set "timeSeries"
          (Val.arr ((time_series_get_time_series_for_observable_information db (oi.fget "id").asStr
            (depth - 1) "observable_informations").map Val.doc))
      else oi
    let oi :=
      if source ≠ "modalities" ∧ (oi.fget "modality_id").isNull = false then
        oi.set "modality"
          (modality_get_single_dict db (oi.fget "modality_id").asStr (depth - 1)
            "observable_informations")
      else oi
    let oi :=
      if source ≠ "life_activities" ∧ (oi.fget "life_activity_id").isNull = false then
        oi.set "life_activity"
          (life_activity_get_single_dict db (oi.fget "life_activity_id").asStr (depth - 1)
            "observable_informations")
      else oi
    let oi :=
      if source ≠ "recordings" then oi.set "recording" (Val.doc recording) else oi
    oi
  else oi
termination_by hydMes depth 1 2
decreasing_by all_goals (simp only [hydMes]; split_ifs <;> omega)

/-- ModalityServiceMongoDB._add_related_documents. -/
def modality_add_related_documents (db : Db) (modality : Doc) (depth : Int) (source : String) : Doc :=
  if source ≠ "observable_informations" then
    if h : 0 < depth then
      modality.set "observable_informations"
        (Val.arr ((observable_information_get_multiple db
          (some (fun oi => oi.fget "modality_id" == modality.fget "id"))
          (depth - 1) "modalities").map Val.doc))
    else modality
  else modality
termination_by hydMes depth 1 2
decreasing_by all_goals (simp only [hydMes]; split_ifs <;> omega)

/-- LifeActivityServiceMongoDB._add_related_documents. -/
def life_activity_add_related_documents (db : Db) (life_activity : Doc) (depth : Int) (source : String) : Doc :=
  if source ≠ "observable_informations" then
    if h : 0 < depth then
      life_activity.set "observable_informations"
        (Val.arr ((observable_information_get_multiple db
          (some (fun oi => oi.fget "life_activity_id" == life_activity.fget "id"))
          (depth - 1) "life_activities").map Val.doc))
    else life_activity
  else life_activity
termination_by hydMes depth 1 2
decreasing_by all_goals (simp only [hydMes]; split_ifs <;> omega)

/-- MeasureServiceMongoDB._add_related_documents: time series (whose query
{"measure_id": id} is matched against the top level of the signal documents,
where no such field exists), then the measure name. -/
def measure_add_related_documents (db : Db) (measure : Doc) (depth : Int) (source : String) : Doc :=
  if h : 0 < depth then
    let measure :=
      if source ≠ "timeSeries" then
        measure.set "time_series"
          (Val.arr ((time_series_get_multiple db [("measure_id", measure.fget "id")]
            (depth - 1) "measures").map Val.doc))
      else measure
    let measure :=
      if source ≠ "measure_names" ∧ (measure.fget "measure_name_id").isNull = false then
        measure.set "measure_name"
          (measure_name_get_single_dict db (measure.fget "measure_name_id").asStr
            (depth - 1) "measures")
      else measure
    measure
  else measure
termination_by hydMes depth 1 2
decreasing_by all_goals (simp only [hydMes]; split_ifs <;> omega)

/-- MeasureNameServiceMongoDB._add_related_documents. -/
def measure_name_add_related_documents (db : Db) (measure_name : Doc) (depth : Int) (source : String) : Doc :=
  if source ≠ "measures" then
    if h : 0 < depth then
      measure_name.set "measures"
        (Val.arr ((measure_get_multiple db
          (fun m => m.fget "measure_name_id" == measure_name.fget "id")
          (depth - 1) "measure_names").map Val.doc))
    else measure_name
  else measure_name
termination_by hydMes depth 1 2
decreasing_by all_goals (simp only [hydMes]; split_ifs <;> omega)

/-- TimeSeriesServiceMongoDB._add_related_documents: measure, then observable
informations. -/
def time_series_add_related_documents (db : Db) (ts : Doc) (depth : Int) (source : String) : Doc :=
  if h : 0 < depth then
    let ts :=
      if source ≠ "measures" ∧ (ts.fget "measure_id").isNull = false then
        ts.set "measure"
          (measure_get_single_dict db (ts.fget "measure_id").asStr (depth - 1) "timeSeries")
      else ts
    let ts :=
      if (ts.fget "observable_information_ids").isNull = false ∧ source ≠ "observable_informations" then
        ts.set "observable_informations"
          (Val.arr ((observable_information_get_multiple db
            (some (fun oi => (ts.fget "observable_information_ids").getArr.contains (oi.fget "id")))
            (depth - 1) "timeSeries").map Val.doc))
      else ts
    ts
  else ts
termination_by hydMes depth 1 2
decreasing_by all_goals (simp only [hydMes]; split_ifs <;> omega)

/-- GenericMongoServiceMixin.get_single_dict for the recording service. -/
def recording_get_single_dict (db : Db) (id : String) (depth : Int) (source : String) : Val :=
  match findById db.recordings id with
  | none => Val.nf id
  | some d => Val.doc (recording_add_related_documents db d depth source)
termination_by hydMes depth 2 3
decreasing_by all_goals (simp only [hydMes]; split_ifs <;> omega)

/-- GenericMongoServiceMixin.get_multiple for the recording service; `proj` is
the optional projection kwarg passed by the observable-information reads. -/
def recording_get_multiple (db : Db) (q : Doc → Bool) (proj : Option (Option (Doc → Bool)))
    (depth : Int) (source : String) : List Doc :=
  (db.recordings.filter q).map (fun r =>
    let r :=
      match proj with
      | none => r
      | some elemQ =>
        projectParent ["additional_properties", "participation_id", "registered_channel_id"]
          "observable_informations" elemQ r
    recording_add_related_documents db r depth source)
termination_by hydMes depth 2 3
decreasing_by all_goals (simp only [hydMes]; split_ifs <;> omega)

/-- Mixin get_single_dict for the registered-channel service. -/
def registered_channel_get_single_dict (db : Db) (id : String) (depth : Int) (source : String) : Val :=
  match findById db.registered_channels id with
  | none => Val.nf id
  | some d => Val.doc (registered_channel_add_related_documents db d depth source)
termination_by hydMes depth 2 3
decreasing_by all_goals (simp only [hydMes]; split_ifs <;> omega)

/-- Mixin get_multiple for the registered-channel service. -/
def registered_channel_get_multiple (db : Db) (q : Doc → Bool) (depth : Int) (source : String) : List Doc :=
  (db.registered_channels.filter q).map (fun d =>
    registered_channel_add_related_documents db d depth source)
termination_by hydMes depth 2 3
decreasing_by all_goals (simp only [hydMes]; split_ifs <;> omega)

/-- Mixin get_single_dict for the channel service. -/
def channel_get_single_dict (db : Db) (id : String) (depth : Int) (source : String) : Val :=
  match findById db.channels id with
  | none => Val.nf id
  | some d => Val.doc (channel_add_related_documents db d depth source)
termination_by hydMes depth 2 3
decreasing_by all_goals (simp only [hydMes]; split_ifs <;> omega)

/-- Mixin get_single_dict for the registered-data service. -/
def registered_data_get_single_dict (db : Db) (id : String) (depth : Int) (source : String) : Val :=
  match findById db.registered_data id with
  | none => Val.nf id
  | some d => Val.doc (registered_data_add_related_documents db d depth source)
termination_by hydMes depth 2 3
decreasing_by all_goals (simp only [hydMes]; split_ifs <;> omega)

/-- Mixin get_single_dict for the participation service. -/
def participation_get_single_dict (db : Db) (id : String) (depth : Int) (source : String) : Val :=
  match findById db.participations id with
  | none => Val.nf id
  | some d => Val.doc (participation_add_related_documents db d depth source)
termination_by hydMes depth 2 3
decreasing_by all_goals (simp only [hydMes]; split_ifs <;> omega)

/-- Mixin get_multiple for the participation service. -/
def participation_get_multiple (db : Db) (q : Doc → Bool) (depth : Int) (source : String) : List Doc :=
  (db.participations.filter q).map (fun d =>
    participation_add_related_documents db d depth source)
termination_by hydMes depth 2 3
decreasing_by all_goals (simp only [hydMes]; split_ifs <;> omega)

/-- Mixin get_multiple for the participant service; `proj` is the optional
projection kwarg passed by the participant-state reads. -/
def participant_get_multiple (db : Db) (q : Doc → Bool) (proj : Option (Option (Doc → Bool)))
    (depth : Int) (source : String) : List Doc :=
  (db.participants.filter q).map (fun p =>
    let p :=
      match proj with
      | none => p
      | some elemQ =>
        projectParent ["additional_properties", "name", "date_of_birth", "sex", "disorder"]
          "participant_states" elemQ p
    participant_add_related_documents db p depth source)
termination_by hydMes depth 2 3
decreasing_by all_goals (simp only [hydMes]; split_ifs <;> omega)

/-- Mixin get_multiple for the personality service. -/
def personality_get_multiple (db : Db) (q : Doc → Bool) (depth : Int) (source : String) : List Doc :=
  (db.personalities.filter q).map (fun d =>
    personality_add_related_documents db d depth source)
termination_by hydMes depth 2 3
decreasing_by all_goals (simp only [hydMes]; split_ifs <;> omega)

/-- Mixin get_single_dict for the personality service. -/
def personality_get_single_dict (db : Db) (id : String) (depth : Int) (source : String) : Val :=
  match findById db.personalities id with
  | none => Val.nf id
  | some d => Val.doc (personality_add_related_documents db d depth source)
termination_by hydMes depth 2 3
decreasing_by all_goals (simp only [hydMes]; split_ifs <;> omega)

/-- Mixin get_single_dict for the appearance service. -/
def appearance_get_single_dict (db : Db) (id : String) (depth : Int) (source : String) : Val :=
  match findById db.appearances id with
  | none => Val.nf id
  | some d => Val.doc (appearance_add_related_documents db d depth source)
termination_by hydMes depth 2 3
decreasing_by all_goals (simp only [hydMes]; split_ifs <;> omega)

/-- Mixin get_multiple for the appearance service. -/
def appearance_get_multiple (db : Db) (q : Doc → Bool) (depth : Int) (source : String) : List Doc :=
  (db.appearances.filter q).map (fun d =>
    appearance_add_related_documents db d depth source)
termination_by hydMes depth 2 3
decreasing_by all_goals (simp only [hydMes]; split_ifs <;> omega)

/-- Mixin get_multiple for the activity service; `proj` is the optional
projection kwarg passed by the activity-execution reads. -/
def activity_get_multiple (db : Db) (q : Doc → Bool) (proj : Option (Option (Doc → Bool)))
    (depth : Int) (source : String) : List Doc :=
  (db.activities.filter q).map (fun a =>
    let a :=
      match proj with
      | none => a
      | some elemQ =>
        projectParent ["additional_properties", "activity", "activity_id", "arrangement_id"]
          "activity_executions" elemQ a
    activity_add_related_documents db a depth source)
termination_by hydMes depth 2 3
decreasing_by all_goals (simp only [hydMes]; split_ifs <;> omega)

/-- Mixin get_single_dict for the arrangement service. -/
def arrangement_get_single_dict (db : Db) (id : String) (depth : Int) (source : String) : Val :=
  match findById db.arrangements id with
  | none => Val.nf id
  | some d => Val.doc (arrangement_add_related_documents db d depth source)
termination_by hydMes depth 2 3
decreasing_by all_goals (simp only [hydMes]; split_ifs <;> omega)

/-- Mixin get_single_dict for the experiment service (get_experiment). -/
def experiment_get_single_dict (db : Db) (id : String) (depth : Int) (source : String) : Val :=
  match findById db.experiments id with
  | none => Val.nf id
  | some d => Val.doc (experiment_add_related_documents db d depth source)
termination_by hydMes depth 2 3
decreasing_by all_goals (simp only [hydMes]; split_ifs <;> omega)

/-- Mixin get_single_dict for the modality service. -/
def modality_get_single_dict (db : Db) (id : String) (depth : Int) (source : String) : Val :=
  match findById db.modalities id with
  | none => Val.nf id
  | some d => Val.doc (modality_add_related_documents db d depth source)
termination_by hydMes depth 2 3
decreasing_by all_goals (simp only [hydMes]; split_ifs <;> omega)

/-- Mixin get_single_dict for the life-activity service. -/
def life_activity_get_single_dict (db : Db) (id : String) (depth : Int) (source : String) : Val :=
  match findById db.life_activities id with
  | none => Val.nf id
  | some d => Val.doc (life_activity_add_related_documents db d depth source)
termination_by hydMes depth 2 3
decreasing_by all_goals (simp only [hydMes]; split_ifs <;> omega)

/-- Mixin get_single_dict for the measure service. -/
def measure_get_single_dict (db : Db) (id : String) (depth : Int) (source : String) : Val :=
  match findById db.measures id with
  | none => Val.nf id
  | some d => Val.doc (measure_add_related_documents db d depth source)
termination_by hydMes depth 2 3
decreasing_by all_goals (simp only [hydMes]; split_ifs <;> omega)

/-- Mixin get_multiple for the measure service. -/
def measure_get_multiple (db : Db) (q : Doc → Bool) (depth : Int) (source : String) : List Doc :=
  (db.measures.filter q).map (fun d => measure_add_related_documents db d depth source)
termination_by hydMes depth 2 3
decreasing_by all_goals (simp only [hydMes]; split_ifs <;> omega)

/-- Mixin get_single_dict for the measure-name service. -/
def measure_name_get_single_dict (db : Db) (id : String) (depth : Int) (source : String) : Val :=
  match findById db.measure_names id with
  | none => Val.nf id
  | some d => Val.doc (measure_name_add_related_documents db d depth source)
termination_by hydMes depth 2 3
decreasing_by all_goals (simp only [hydMes]; split_ifs <;> omega)

/-- ParticipantStateServiceMongoDB.get_single_dict: the participant state is
extracted from its participant, which is fetched (projected, depth - 1) and
then stripped of the embedded list before being attached by the hook. -/
def participant_state_get_single_dict (db : Db) (id : String) (depth : Int) (source : String) : Val :=
  let participant_result := participant_get_multiple db
    (fun p => (p.fget "participant_states").getArr.any (fun v => v.getDoc.fget "id" == Val.str id))
    (some (some (fun ps => ps.fget "id" == Val.str id)))
    (depth - 1) "participant_states"
  match participant_result with
  | [] => Val.nf id
  | related_participant :: _ =>
    match (related_participant.fget "participant_states").getArr with
    | [] => Val.nf id
    | ps0 :: _ =>
      let related := related_participant.erase "participant_states"
      Val.doc (participant_state_add_related_documents db ps0.getDoc depth source (Val.doc related))
termination_by hydMes depth 3 4
decreasing_by all_goals (simp only [hydMes]; split_ifs <;> omega)

/-- ParticipantStateServiceMongoDB.get_multiple: the query is rewritten onto
the participant collection, the embedded states are extracted and hydrated.
The Python code passes the whole participant-results list as the `participant`
argument of each embedded hook (and the hook may attach it), which is modelled
by the list of stripped participants. -/
def participant_state_get_multiple (db : Db) (q : Option (Doc → Bool)) (depth : Int) (source : String) :
    List Doc :=
  let is_match : Doc → Bool := fun p =>
    match q with
    | some qq => (p.fget "participant_states").getArr.any (fun v => qq v.getDoc)
    | none => true
  let participant_results := participant_get_multiple db is_match (some q) (depth - 1) "participant_states"
  let stripped := participant_results.map (fun p => p.erase "participant_states")
  (participant_results.map (fun p =>
    if p.hasKey "participant_states" then
      (p.fget "participant_states").getArr.map (fun ps =>
        participant_state_add_related_documents db ps.getDoc depth source
          (Val.arr (stripped.map Val.doc)))
    else [])).flatten
termination_by hydMes depth 3 4
decreasing_by all_goals (simp only [hydMes]; split_ifs <;> omega)

/-- ObservableInformationServiceMongoDB.get_single_dict: extracted from its
recording (fetched projected at depth - 1, hydrated, then stripped). -/
def observable_information_get_single_dict (db : Db) (id : String) (depth : Int) (source : String) : Val :=
  let recording_result := recording_get_multiple db
    (fun r => (r.fget "observable_informations").getArr.any (fun v => v.getDoc.fget "id" == Val.str id))
    (some (some (fun oi => oi.fget "id" == Val.str id)))
    (depth - 1) "observable_informations"
  match recording_result with
  | [] => Val.nf id
  | related_recording :: _ =>
    match (related_recording.fget "observable_informations").getArr with
    | [] => Val.nf id
    | oi0 :: _ =>
      let related := related_recording.erase "observable_informations"
      Val.doc (observable_information_add_related_documents db oi0.getDoc depth source related)
termination_by hydMes depth 3 4
decreasing_by all_goals (simp only [hydMes]; split_ifs <;> omega)

/-- ObservableInformationServiceMongoDB.get_multiple. -/
def observable_information_get_multiple (db : Db) (q : Option (Doc → Bool)) (depth : Int) (source : String) :
    List Doc :=
  let is_match : Doc → Bool := fun r =>
    match q with
    | some qq => (r.fget "observable_informations").getArr.any (fun v => qq v.getDoc)
    | none => true
  let recording_results := recording_get_multiple db is_match (some q) (depth - 1) "observable_informations"
  (recording_results.map (fun r =>
    if r.hasKey "observable_informations" then
      let stripped := r.erase "observable_informations"
      (r.fget "observable_informations").getArr.map (fun oi =>
        observable_information_add_related_documents db oi.getDoc depth source stripped)
    else [])).flatten
termination_by hydMes depth 3 4
decreasing_by all_goals (simp only [hydMes]; split_ifs <;> omega)

/-- ActivityExecutionServiceMongoDB.get_single_dict: extracted from its
activity (fetched projected at depth - 1, hydrated, then stripped). -/
def activity_execution_get_single_dict (db : Db) (id : String) (depth : Int) (source : String) : Val :=
  let activity_result := activity_get_multiple db
    (fun a => (a.fget "activity_executions").getArr.any (fun v => v.getDoc.fget "id" == Val.str id))
    (some (some (fun ae => ae.fget "id" == Val.str id)))
    (depth - 1) "activity_executions"
  match activity_result with
  | [] => Val.nf id
  | related_activity :: _ =>
    match (related_activity.fget "activity_executions").getArr with
    | [] => Val.nf id
    | ae0 :: _ =>
      let related := related_activity.erase "activity_executions"
      Val.doc (activity_execution_add_related_documents db ae0.getDoc depth source related)
termination_by hydMes depth 3 4
decreasing_by all_goals (simp only [hydMes]; split_ifs <;> omega)

/-- ActivityExecutionServiceMongoDB.get_multiple. -/
def activity_execution_get_multiple (db : Db) (q : Option (Doc → Bool)) (depth : Int) (source : String) :
    List Doc :=
  let is_match : Doc → Bool := fun a =>
    match q with
    | some qq => (a.fget "activity_executions").getArr.any (fun v => qq v.getDoc)
    | none => true
  let activity_results := activity_get_multiple db is_match (some q) (depth - 1) "activity_executions"
  (activity_results.map (fun a =>
    if a.hasKey "activity_executions" then
      let stripped := a.erase "activity_executions"
      (a.fget "activity_executions").getArr.map (fun ae =>
        activity_execution_add_related_documents db ae.getDoc depth source stripped)
    else [])).flatten
termination_by hydMes depth 3 4
decreasing_by all_goals (simp only [hydMes]; split_ifs <;> omega)

/-- TimeSeriesServiceMongoDB.get_multiple (query-dict path): the grouped
series are hydrated at the same depth. -/
def time_series_get_multiple (db : Db) (query : Doc) (depth : Int) (source : String) : List Doc :=
  (mongo_get_many_time_series db query).map (fun ts =>
    time_series_add_related_documents db ts depth source)
termination_by hydMes depth 3 4
decreasing_by all_goals (simp only [hydMes]; split_ifs <;> omega)

/-- TimeSeriesServiceMongoDB.get_time_series_for_observable_information. -/
def time_series_get_time_series_for_observable_information (db : Db) (oi_id : String)
    (depth : Int) (source : String) : List Doc :=
  time_series_get_multiple db [("metadata.observable_information_ids", Val.str oi_id)] depth source
termination_by hydMes depth 4 5
decreasing_by all_goals (simp only [hydMes]; split_ifs <;> omega)

/-- ScenarioServiceMongoDB._change_ids_to_objects: decremented depth (floored
at 0), empty source replaced by the scenario kind; activity-execution ids are
replaced by fetched objects unless suppressed (then nulled), and the
experiment id is resolved unless suppressed. -/
def scenario_change_ids_to_objects (db : Db) (scenario : Doc) (depth : Int) (source : String) : Doc :=
  let depth2 : Int := if depth - 1 ≤ 0 then 0 else depth - 1
  let source := if source == "" then "scenarios" else source
  let scenario :=
    if source ≠ "activity_executions" then
      scenario.set "activity_executions"
        (Val.arr ((scenario.fget "activity_executions").getArr.map (fun branch =>
          Val.arr (branch.getArr.map (fun ae_id =>
            activity_execution_get_single_dict db ae_id.asStr depth2 source)))))
    else scenario.set "activity_executions" Val.null
  if source ≠ "experiments" then
    scenario.set "experiment"
      (experiment_get_single_dict db (scenario.fget "experiment_id").asStr depth2 source)
  else scenario
termination_by hydMes depth 4 0
decreasing_by all_goals (simp only [hydMes]; split_ifs <;> omega)

/-- ScenarioServiceMongoDB.get_scenario_by_activity_execution with
multiple=True: all scenarios containing the execution, each converted; None
models the NotFoundByIdModel result. -/
def scenario_get_scenario_by_activity_execution_multiple (db : Db) (ae_id : String)
    (depth : Int) (source : String) : Option (List Doc) :=
  match scenario_find_by_activity_execution db ae_id with
  | [] => none
  | s :: rest => some ((s :: rest).map (fun sc => scenario_change_ids_to_objects db sc depth source))
termination_by hydMes depth 5 1
decreasing_by all_goals (simp only [hydMes]; split_ifs <;> omega)

/-- ScenarioServiceMongoDB.get_scenario_by_activity_execution with
multiple=False: the first scenario containing the execution. -/
def scenario_get_scenario_by_activity_execution (db : Db) (ae_id : String)
    (depth : Int) (source : String) : Val :=
  match scenario_find_by_activity_execution db ae_id with
  | [] => Val.nf ae_id
  | s :: _ => Val.doc (scenario_change_ids_to_objects db s depth source)
termination_by hydMes depth 5 1
decreasing_by all_goals (simp only [hydMes]; split_ifs <;> omega)

/-- ScenarioServiceMongoDB.get_scenarios_by_experiment (all scenarios of the
experiment, converted; None models NotFoundByIdModel). -/
def scenario_get_scenarios_by_experiment (db : Db) (experiment_id : String)
    (depth : Int) (source : String) : Option (List Doc) :=
  match scenario_find_by_experiment db experiment_id with
  | [] => none
  | s :: rest => some ((s :: rest).map (fun sc => scenario_change_ids_to_objects db sc depth source))
termination_by hydMes depth 5 1
decreasing_by all_goals (simp only [hydMes]; split_ifs <;> omega)

/-- ScenarioServiceMongoDB.get_scenario_by_experiment (first scenario of the
experiment; the conversion runs with the default empty source). -/
def scenario_get_scenario_by_experiment (db : Db) (experiment_id : String) (depth : Int) : Val :=
  match scenario_find_by_experiment db experiment_id with
  | [] => Val.nf experiment_id
  | s :: _ => Val.doc (scenario_change_ids_to_objects db s depth "")
termination_by hydMes depth 5 1
decreasing_by all_goals (simp only [hydMes]; split_ifs <;> omega)

/-- ScenarioServiceMongoDB.get_scenario_by_element_id: dispatches on what the
element id denotes — a scenario itself, the experiment (insert-at-front case)
or an activity execution — returning the scenario result together with the
kind of the related element. -/
def get_scenario_by_element_id (db : Db) (element_id : String) (depth : Int) : Val × ElementKind :=
  match findById db.scenarios element_id with
  | some s => (Val.doc (scenario_change_ids_to_objects db s depth ""), ElementKind.scenarioElem)
  | none =>
    match findById db.experiments element_id with
    | some _ =>
      (scenario_get_scenario_by_experiment db element_id depth, ElementKind.experimentElem)
    | none =>
      match activity_execution_get_single_dict db element_id 0 "" with
      | Val.nf _ => (Val.nf element_id, ElementKind.noneElem)
      | _ =>
        (scenario_get_scenario_by_activity_execution db element_id depth "",
          ElementKind.activityExecutionElem)
termination_by hydMes depth 6 5
decreasing_by all_goals (simp only [hydMes]; split_ifs <;> omega)

end

/-- ScenarioServiceMongoDB.get_scenario: the scenario component of
get_scenario_by_element_id. -/
def get_scenario (db : Db) (element_id : String) (depth : Int) : Val :=
  (get_scenario_by_element_id db element_id depth).1

/-! ## Hydration lemmas and fixtures (claims C1, C2) -/

theorem val_beq_def (a b : Val) : (a == b) = Val.beq a b := rfl

/-- Field lookup of a key after the in-place-replace half of Doc.set with a
different key. -/
theorem doc_get?_map_set (d : Doc) (k k2 : String) (v : Val) (h : (k == k2) = false) :
    Doc.get? (d.map (fun p => if p.1 == k then (k, v) else p)) k2 = d.get? k2 := by
  induction d with
  | nil => rfl
  | cons p rest ih =>
    by_cases hp : (p.1 == k) = true
    · have hp1 : p.1 = k := by simpa using hp
      simp only [List.map_cons, hp, if_true, Doc.get?, List.find?]
      have h2 : (k == k2) = false := h
      rw [show ((k, v).1 == k2) = false from h2, show (p.1 == k2) = false from hp1 ▸ h2]
      exact ih
    · simp only [List.map_cons, hp, if_false, Bool.false_eq_true, ite_false, Doc.get?,
        List.find?]
      cases hq : (p.1 == k2) with
      | true => rfl
      | false => exact ih

/-- Field lookup of a key after the append half of Doc.set with a different
key. -/
theorem doc_get?_append (d : Doc) (k k2 : String) (v : Val) (h : (k == k2) = false) :
    Doc.get? (d ++ [(k, v)]) k2 = d.get? k2 := by
  induction d with
  | nil => simp [Doc.get?, List.find?, h]
  | cons p rest ih =>
    simp only [List.cons_append, Doc.get?, List.find?]
    cases hq : (p.1 == k2) with
    | true => rfl
    | false => exact ih

/-- Setting one field leaves the lookup of every other field unchanged. -/
theorem doc_get?_set_ne (d : Doc) (k k2 : String) (v : Val) (h : (k == k2) = false) :
    (d.set k v).get? k2 = d.get? k2 := by
  unfold Doc.set
  split_ifs with hk
  · exact doc_get?_map_set d k k2 v h
  · exact doc_get?_append d k k2 v h

/-- Recording fixture: a recording whose only outgoing reference is its
participation. -/
def exRecording : Doc :=
  [("id", .str "r1"), ("additional_properties", .null), ("participation_id", .str "p1"),
   ("registered_channel_id", .null), ("observable_informations", .null)]

/-- Participation fixture: refers back to no participant state, forward to one
activity execution. -/
def exParticipation : Doc :=
  [("id", .str "p1"), ("additional_properties", .null), ("participant_state_id", .null),
   ("activity_execution_id", .str "ae1")]

/-- Embedded activity-execution fixture. -/
def exActivityExecution : Doc :=
  [("id", .str "ae1"), ("additional_properties", .null), ("arrangement_id", .null)]

/-- Activity fixture embedding the activity execution. -/
def exActivity : Doc :=
  [("id", .str "a1"), ("additional_properties", .null), ("activity", .str "shopping"),
   ("activity_id", .null), ("arrangement_id", .null),
   ("activity_executions", .arr [.doc exActivityExecution])]

/-- Store for the hydration claims: one recording, one participation, one
activity with an embedded execution. -/
def exDb : Db :=
  { recordings := [exRecording], participations := [exParticipation], activities := [exActivity] }

/-- C1, counterexample: reading recording r1 at depth 4 starts a hydration
chain Recording → Participation → ActivityExecution → Participation →
Recording whose last hop re-fetches recording r1 itself — the source
parameter was overwritten at every hop (recordings, activity_executions, …),
so the kind that initiated the traversal is not carried down and its
re-fetching is not suppressed, contrary to the claim. -/
theorem C1_source_suppression_counterexample :
    ((((recording_get_single_dict exDb "r1" 4 "").getDoc.fget "participation").getDoc.fget
        "activity_execution").getDoc.fget "participations").getArr.map
      (fun p => ((p.getDoc.fget "recordings").getArr.map (fun r => r.getDoc.fget "id"))) =
    [[Val.str "r1"]] := by
  simp [recording_get_single_dict, recording_add_related_documents,
    participation_get_single_dict, participation_add_related_documents,
    activity_execution_get_single_dict, activity_get_multiple, activity_add_related_documents,
    activity_execution_add_related_documents, scenario_get_scenario_by_activity_execution_multiple,
    scenario_find_by_activity_execution, participation_get_multiple, recording_get_multiple,
    exDb, exRecording, exParticipation, exActivity, exActivityExecution,
    findById, projectParent, Doc.fget, Doc.get?, Doc.set, Doc.hasKey, Doc.erase,
    Val.isNull, Val.asStr, Val.getDoc, Val.getArr, val_beq_def, Val.beq]

/-- C1, amended: the source parameter carries only the immediately preceding
hop's entity kind (each hop overwrites it, usually with the caller's own
kind), so exactly the direct back-edge to the caller is suppressed, at every
depth: a registered channel hydrated from the recording side never fetches
its recordings, a recording hydrated from the registered-channel side never
attaches the registered channel, a participant state hydrated from the
personality side never fetches its personalities, and a personality hydrated
from the participant-state side is left entirely unexpanded.  Kinds further
back in the chain, the initiating kind included, can be re-fetched (see the
counterexample); termination is guaranteed by the depth decrement alone. -/
theorem C1_source_suppression_direct_back_edges (db : Db) (rc r ps p : Doc) (depth : Int)
    (participant : Val) :
    (registered_channel_add_related_documents db rc depth "recordings").get? "recordings" =
      rc.get? "recordings" ∧
    (recording_add_related_documents db r depth "registered_channels").get? "registered_channel" =
      r.get? "registered_channel" ∧
    (participant_state_add_related_documents db ps depth "personalities" participant).get?
      "personalities" = ps.get? "personalities" ∧
    personality_add_related_documents db p depth "participant_states" = p := by
  refine ⟨?_, ?_, ?_, ?_⟩
  · rw [registered_channel_add_related_documents]
    split
    · simp only []
      split_ifs <;> simp_all [doc_get?_set_ne]
    · rfl
  · rw [recording_add_related_documents]
    split
    · simp only []
      split_ifs <;> simp_all [doc_get?_set_ne]
    · rfl
  · rw [participant_state_add_related_documents]
    split
    · simp only []
      split_ifs <;> simp_all [doc_get?_set_ne]
    · rfl
  · rw [personality_add_related_documents]
    split
    · simp
    · rfl

/-- C2: with depth at or below zero no hydration hook attaches anything —
every service's _add_related_documents is the identity — and the mixin
single-document reads return exactly the stored document (scalar properties
and raw foreign-id values only). -/
theorem C2_depth_zero_no_hydration (db : Db) (d : Doc) (depth : Int) (source : String)
    (participant : Val) (parent : Doc) (h : depth ≤ 0) :
    recording_add_related_documents db d depth source = d ∧
    registered_channel_add_related_documents db d depth source = d ∧
    channel_add_related_documents db d depth source = d ∧
    registered_data_add_related_documents db d depth source = d ∧
    participation_add_related_documents db d depth source = d ∧
    participant_state_add_related_documents db d depth source participant = d ∧
    participant_add_related_documents db d depth source = d ∧
    personality_add_related_documents db d depth source = d ∧
    appearance_add_related_documents db d depth source = d ∧
    activity_add_related_documents db d depth source = d ∧
    activity_execution_add_related_documents db d depth source parent = d ∧
    arrangement_add_related_documents db d depth source = d ∧
    experiment_add_related_documents db d depth source = d ∧
    observable_information_add_related_documents db d depth source parent = d ∧
    modality_add_related_documents db d depth source = d ∧
    life_activity_add_related_documents db d depth source = d ∧
    measure_add_related_documents db d depth source = d ∧
    measure_name_add_related_documents db d depth source = d ∧
    time_series_add_related_documents db d depth source = d ∧
    (∀ id, recording_get_single_dict db id depth source =
      (match findById db.recordings id with
       | none => Val.nf id
       | some r => Val.doc r)) ∧
    (∀ id, personality_get_single_dict db id depth source =
      (match findById db.personalities id with
       | none => Val.nf id
       | some r => Val.doc r)) ∧
    (∀ id, appearance_get_single_dict db id depth source =
      (match findById db.appearances id with
       | none => Val.nf id
       | some r => Val.doc r)) ∧
    (∀ q, recording_get_multiple db q none depth source = db.recordings.filter q) := by
  have h2 : ¬ (0 : Int) < depth := by omega
  refine ⟨?_, ?_, ?_, ?_, ?_, ?_, ?_, ?_, ?_, ?_, ?_, ?_, ?_, ?_, ?_, ?_, ?_, ?_, ?_,
    ?_, ?_, ?_, ?_⟩
  · simp [recording_add_related_documents, h2]
  · simp [registered_channel_add_related_documents, h2]
  · simp [channel_add_related_documents, h2]
  · simp [registered_data_add_related_documents, h2]
  · simp [participation_add_related_documents, h2]
  · simp [participant_state_add_related_documents, h2]
  · simp [participant_add_related_documents, h2]
  · simp [personality_add_related_documents, h2]
  · simp [appearance_add_related_documents, h2]
  · simp [activity_add_related_documents, h2]
  · simp [activity_execution_add_related_documents, h2]
  · simp [arrangement_add_related_documents, h2]
  · simp [experiment_add_related_documents, h2]
  · simp [observable_information_add_related_documents, h2]
  · simp [modality_add_related_documents, h2]
  · simp [life_activity_add_related_documents, h2]
  · simp [measure_add_related_documents, h2]
  · simp [measure_name_add_related_documents, h2]
  · simp [time_series_add_related_documents, h2]
  · intro id
    simp [recording_get_single_dict, recording_add_related_documents, h2]
  · intro id
    simp [personality_get_single_dict, personality_add_related_documents, h2]
  · intro id
    simp [appearance_get_single_dict, appearance_add_related_documents, h2]
  · intro q
    simp [recording_get_multiple, recording_add_related_documents, h2]

/-- Witness for C2: the depth-0 read of recording r1 returns the stored
document unchanged. -/
theorem C2_depth_zero_no_hydration_witness :
    recording_add_related_documents exDb exRecording 0 "" = exRecording ∧
    (∀ id, recording_get_single_dict exDb id 0 "" =
      (match findById exDb.recordings id with
       | none => Val.nf id
       | some r => Val.doc r)) := by
  obtain ⟨h1, -, -, -, -, -, -, -, -, -, -, -, -, -, -, -, -, -, -, h20, -⟩ :=
    C2_depth_zero_no_hydration exDb exRecording 0 "" Val.null [] (by omega)
  exact ⟨h1, h20⟩

/-! ## Scenario ordering subsystem (claim C3) -/

/-- ScenarioServiceMongoDB.get_scenario_dict_by_scenario_id: the raw scenario
document (activity-execution ids not parsed to objects). -/
def get_scenario_dict_by_scenario_id (db : Db) (scenario_id : String) : Option Doc :=
  findById db.scenarios scenario_id

/-- MongoApiService.update_document_with_dict on the scenario collection:
full replace of the document with the given id. -/
def scenario_replace (db : Db) (scenario_id : String) (newdoc : Doc) : Db :=
  { db with scenarios := db.scenarios.map (fun s =>
      if s.fget "id" == Val.str scenario_id then newdoc else s) }

/-- Python list.insert: inserts before position i, appending when i is past
the end. -/
def pyInsert (l : List Val) (i : Nat) (a : Val) : List Val :=
  l.take i ++ [a] ++ l.drop i

/-- The nested branch lists of a scenario document. -/
def branchesOf (scenario_dict : Doc) : List (List Val) :=
  (scenario_dict.fget "activity_executions").getArr.map Val.getArr

/-- Branch lists as a stored value. -/
def branchesVal (bs : List (List Val)) : Val :=
  Val.arr (bs.map Val.arr)

/-- ScenarioServiceMongoDB._put_activity_execution_after_element: locate the
scenario of the previous element; when the previous element is the experiment
the insertion position is branch 0 position 0 (an IndexError when there is no
branch 0), otherwise the position just after the previous id inside the first
branch list containing it (position (0,0) when no branch contains it); splice
the new id there and replace the scenario document. -/
def _put_activity_execution_after_element (db : Db) (previous_id activity_execution_id : String) :
    Except String Db :=
  match get_scenario_by_element_id db previous_id 0 with
  | (Val.nf _, _) => .ok db
  | (scenario, related_element) =>
    match get_scenario_dict_by_scenario_id db (scenario.getDoc.fget "id").asStr with
    | none => .error "KeyError"
    | some scenario_dict =>
      let is_from_experiment := related_element == ElementKind.experimentElem
      let branches := branchesOf scenario_dict
      let idx : Nat × Nat :=
        if is_from_experiment then (0, 0)
        else
          match branches.findIdx? (fun b => b.contains (Val.str previous_id)) with
          | some i => (i, ((branches.getD i []).indexOf (Val.str previous_id)) + 1)
          | none => (0, 0)
      match branches.get? idx.1 with
      | none => .error "IndexError"
      | some b =>
        let branches2 := branches.set idx.1 (pyInsert b idx.2 (Val.str activity_execution_id))
        .ok (scenario_replace db (scenario_dict.fget "id").asStr
          (scenario_dict.set "activity_executions" (branchesVal branches2)))

/-- ScenarioServiceMongoDB.delete_activity_execution: NotFound (store
untouched) when no scenario contains the id; otherwise splice the first
occurrence out of the first branch list containing it (the branch list itself
stays in place), replace the scenario, and return the execution re-read from
the updated store. -/
def delete_activity_execution (db : Db) (activity_execution_id : String) : Db × Val :=
  match scenario_get_scenario_by_activity_execution db activity_execution_id 0 "" with
  | Val.nf e => (db, Val.nf e)
  | scenario =>
    match get_scenario_dict_by_scenario_id db (scenario.getDoc.fget "id").asStr with
    | none => (db, Val.nf activity_execution_id)
    | some scenario_dict =>
      let branches := branchesOf scenario_dict
      let branches2 :=
        match branches.findIdx? (fun b => b.contains (Val.str activity_execution_id)) with
        | none => branches
        | some i => branches.set i ((branches.getD i []).erase (Val.str activity_execution_id))
      let db2 := scenario_replace db (scenario_dict.fget "id").asStr
        (scenario_dict.set "activity_executions" (branchesVal branches2))
      (db2, activity_execution_get_single_dict db2 activity_execution_id 0 "")

/-- ScenarioServiceMongoDB.change_order: identical ids are rejected, otherwise
delete-then-reinsert-after-the-new-predecessor; the delete's NotFound result
is ignored. -/
def change_order (db : Db) (activity_execution_id previous_id : String) :
    Except String (Db × Option String) :=
  if activity_execution_id == previous_id then
    .ok (db, some "Given indexes for order change are identical")
  else
    let step := delete_activity_execution db activity_execution_id
    match _put_activity_execution_after_element step.1 previous_id activity_execution_id with
    | .error e => .error e
    | .ok db2 => .ok (db2, none)

/-- Branch id lists of a get_scenario result (each fetched execution object
reduced to its id). -/
def scenarioBranchIds (v : Val) : List (List Val) :=
  (v.getDoc.fget "activity_executions").getArr.map (fun b =>
    b.getArr.map (fun ae => ae.getDoc.fget "id"))

/-- Experiment fixture for the ordering round trip. -/
def c3Experiment : Doc :=
  [("id", .str "e1"), ("additional_properties", .null)]

/-- The three activity executions of the ordering round trip. -/
def c3aeA : Doc := [("id", .str "aeA"), ("additional_properties", .null), ("arrangement_id", .null)]

/-- Second activity execution. -/
def c3aeB : Doc := [("id", .str "aeB"), ("additional_properties", .null), ("arrangement_id", .null)]

/-- Third activity execution. -/
def c3aeC : Doc := [("id", .str "aeC"), ("additional_properties", .null), ("arrangement_id", .null)]

/-- Activity embedding the three executions. -/
def c3Activity : Doc :=
  [("id", .str "act1"), ("additional_properties", .null), ("activity", .str "shopping"),
   ("activity_id", .null), ("arrangement_id", .null),
   ("activity_executions", .arr [.doc c3aeA, .doc c3aeB, .doc c3aeC])]

/-- The scenario of experiment e1 with the given branch lists. -/
def c3ScenarioWith (bs : List (List Val)) : Doc :=
  [("id", .str "s1"), ("additional_properties", .null), ("experiment_id", .str "e1"),
   ("activity_executions", branchesVal bs)]

/-- Store for the ordering round trip, parameterised by the scenario's branch
lists. -/
def c3DbWith (bs : List (List Val)) : Db :=
  { experiments := [c3Experiment], activities := [c3Activity],
    scenarios := [c3ScenarioWith bs] }

/-- C3: the scenario ordering round trip.  Starting from the experiment's
scenario with one empty branch, inserting aeA after the experiment (branch 0
position 0), aeB after aeA and aeC after aeB yields the single branch
[aeA, aeB, aeC], which get_scenario(e1) returns in order; removing aeB
splices it out by id leaving [aeA, aeC] (the branch list in place); the
delete-then-reinsert change_order restores [aeA, aeB, aeC] (the inner delete
finds nothing and is ignored); and change_order moving aeC to directly after
aeA repositions it position-correctly, giving [aeA, aeC, aeB]. -/
theorem C3_scenario_ordering_roundtrip :
    _put_activity_execution_after_element (c3DbWith [[]]) "e1" "aeA" =
      .ok (c3DbWith [[.str "aeA"]]) ∧
    _put_activity_execution_after_element (c3DbWith [[.str "aeA"]]) "aeA" "aeB" =
      .ok (c3DbWith [[.str "aeA", .str "aeB"]]) ∧
    _put_activity_execution_after_element (c3DbWith [[.str "aeA", .str "aeB"]]) "aeB" "aeC" =
      .ok (c3DbWith [[.str "aeA", .str "aeB", .str "aeC"]]) ∧
    scenarioBranchIds (get_scenario (c3DbWith [[.str "aeA", .str "aeB", .str "aeC"]]) "e1" 0) =
      [[.str "aeA", .str "aeB", .str "aeC"]] ∧
    delete_activity_execution (c3DbWith [[.str "aeA", .str "aeB", .str "aeC"]]) "aeB" =
      (c3DbWith [[.str "aeA", .str "aeC"]], Val.doc c3aeB) ∧
    scenarioBranchIds (get_scenario (c3DbWith [[.str "aeA", .str "aeC"]]) "e1" 0) =
      [[.str "aeA", .str "aeC"]] ∧
    change_order (c3DbWith [[.str "aeA", .str "aeC"]]) "aeB" "aeA" =
      .ok (c3DbWith [[.str "aeA", .str "aeB", .str "aeC"]], none) ∧
    change_order (c3DbWith [[.str "aeA", .str "aeB", .str "aeC"]]) "aeC" "aeA" =
      .ok (c3DbWith [[.str "aeA", .str "aeC", .str "aeB"]], none) := by
  refine ⟨?_, ?_, ?_, ?_, ?_, ?_, ?_, ?_⟩ <;>
    (simp [_put_activity_execution_after_element, delete_activity_execution, change_order,
      get_scenario, get_scenario_by_element_id, get_scenario_dict_by_scenario_id,
      scenario_get_scenario_by_experiment, scenario_get_scenario_by_activity_execution,
      scenario_find_by_experiment, scenario_find_by_activity_execution,
      scenario_change_ids_to_objects, scenario_replace, scenarioBranchIds,
      experiment_get_single_dict, experiment_add_related_documents,
      activity_execution_get_single_dict, activity_get_multiple, activity_add_related_documents,
      activity_execution_add_related_documents, participation_get_multiple,
      participation_add_related_documents, recording_get_multiple, recording_add_related_documents,
      scenario_get_scenario_by_activity_execution_multiple,
      branchesOf, branchesVal, pyInsert, c3DbWith, c3ScenarioWith, c3Experiment, c3Activity,
      c3aeA, c3aeB, c3aeC, findById, projectParent, Doc.fget, Doc.get?, Doc.set, Doc.hasKey,
      Doc.erase, Val.isNull, Val.asStr, Val.getDoc, Val.getArr, val_beq_def, Val.beq,
      List.indexOf, List.findIdx?, List.findIdx]
     all_goals decide)

/-! ### Personality and appearance services: sub-kind validation and dispatch -/

/-- Field record of the grisera PersonalityBigFiveIn input model: the five
trait fields the personality service checks. -/
structure PersonalityBigFiveIn : Type where
  agreeableness : ℚ
  conscientiousness : ℚ
  extroversion : ℚ
  neuroticism : ℚ
  openess : ℚ
  deriving Repr, DecidableEq

/-- Serialization personality.dict() of a PersonalityBigFiveIn. -/
def big_five_dict (p : PersonalityBigFiveIn) : Doc :=
  [("agreeableness", Val.num p.agreeableness),
   ("conscientiousness", Val.num p.conscientiousness),
   ("extroversion", Val.num p.extroversion),
   ("neuroticism", Val.num p.neuroticism),
   ("openess", Val.num p.openess)]

/-- Field record of the grisera AppearanceSomatotypeIn input model. -/
structure AppearanceSomatotypeIn : Type where
  ectomorph : ℚ
  endomorph : ℚ
  mesomorph : ℚ
  deriving Repr, DecidableEq

/-- Serialization appearance.dict() of an AppearanceSomatotypeIn. -/
def somatotype_dict (a : AppearanceSomatotypeIn) : Doc :=
  [("ectomorph", Val.num a.ectomorph),
   ("endomorph", Val.num a.endomorph),
   ("mesomorph", Val.num a.mesomorph)]

/-- All five big-five trait fields inside the closed range [0, 1] (the
negation of the guard of save_personality_big_five and
update_personality_big_five). -/
def bigFiveInRange (p : PersonalityBigFiveIn) : Prop :=
  (0 ≤ p.agreeableness ∧ p.agreeableness ≤ 1) ∧
  (0 ≤ p.conscientiousness ∧ p.conscientiousness ≤ 1) ∧
  (0 ≤ p.extroversion ∧ p.extroversion ≤ 1) ∧
  (0 ≤ p.neuroticism ∧ p.neuroticism ≤ 1) ∧
  (0 ≤ p.openess ∧ p.openess ≤ 1)

instance (p : PersonalityBigFiveIn) : Decidable (bigFiveInRange p) := by
  unfold bigFiveInRange; infer_instance

/-- All three somatotype scale fields inside the closed range [1, 7]. -/
def somatotypeInRange (a : AppearanceSomatotypeIn) : Prop :=
  (1 ≤ a.ectomorph ∧ a.ectomorph ≤ 7) ∧
  (1 ≤ a.endomorph ∧ a.endomorph ≤ 7) ∧
  (1 ≤ a.mesomorph ∧ a.mesomorph ≤ 7)

instance (a : AppearanceSomatotypeIn) : Decidable (somatotypeInRange a) := by
  unfold somatotypeInRange; infer_instance

/-- Result of a PersonalityServiceMongoDB read or write: the Panas or BigFive
out object (picked on the presence of negative_affect), the NotFoundByIdModel
sentinel with its id and errors message, or an out object carrying the input
fields plus a validation errors message. -/
inductive PersonalityResult : Type where
  | panasOut : Doc → PersonalityResult
  | bigFiveOut : Doc → PersonalityResult
  | notFoundModel : String → String → PersonalityResult
  | errorsOut : Doc → String → PersonalityResult
  deriving Repr, DecidableEq

/-- Result of an AppearanceServiceMongoDB read or write (glasses picks the
occlusion shape). -/
inductive AppearanceResult : Type where
  | occlusionOut : Doc → AppearanceResult
  | somatotypeOut : Doc → AppearanceResult
  | notFoundModel : String → String → AppearanceResult
  | errorsOut : Doc → String → AppearanceResult
  deriving Repr, DecidableEq

/-- PersonalityServiceMongoDB.get_single: the mixin dict read, then the
sub-kind choice on the presence of negative_affect among the keys. -/
def personality_get_single (db : Db) (id : String) (depth : Int) (source : String) :
    PersonalityResult :=
  match personality_get_single_dict db id depth source with
  | Val.nf missing => PersonalityResult.notFoundModel missing "document not found"
  | v =>
    if v.getDoc.hasKey "negative_affect" then PersonalityResult.panasOut v.getDoc
    else PersonalityResult.bigFiveOut v.getDoc

/-- AppearanceServiceMongoDB.get_single. -/
def appearance_get_single (db : Db) (id : String) (depth : Int) (source : String) :
    AppearanceResult :=
  match appearance_get_single_dict db id depth source with
  | Val.nf missing => AppearanceResult.notFoundModel missing "document not found"
  | v =>
    if v.getDoc.hasKey "glasses" then AppearanceResult.occlusionOut v.getDoc
    else AppearanceResult.somatotypeOut v.getDoc

/-- Store effect of mixin create on the personality collection: the serialized
input is inserted and later read back in output form, the generated id
appended last (the output conversion adds "id" after deleting "_id"). -/
def personality_create (db : Db) (d : Doc) (freshId : String) : Db :=
  { db with personalities := db.personalities ++ [d ++ [("id", Val.str freshId)]] }

/-- Store effect of mixin create on the appearance collection. -/
def appearance_create (db : Db) (d : Doc) (freshId : String) : Db :=
  { db with appearances := db.appearances ++ [d ++ [("id", Val.str freshId)]] }

/-- Store effect of MongoApiService.update_document on the personality
collection: replace_one keeps the _id and replaces the stored fields with the
new serialized input. -/
def personality_replace_document (db : Db) (id : String) (d : Doc) : Db :=
  { db with personalities := db.personalities.map (fun s =>
      if s.fget "id" == Val.str id then d ++ [("id", Val.str id)] else s) }

/-- update_document on the appearance collection. -/
def appearance_replace_document (db : Db) (id : String) (d : Doc) : Db :=
  { db with appearances := db.appearances.map (fun s =>
      if s.fget "id" == Val.str id then d ++ [("id", Val.str id)] else s) }

/-- PersonalityServiceMongoDB.save_personality_big_five: the range guard, then
mixin create, which returns get_single of the created id. The pair carries the
returned object and the store state after the call. -/
def save_personality_big_five (db : Db) (personality : PersonalityBigFiveIn)
    (freshId : String) : PersonalityResult × Db :=
  if ¬ (0 ≤ personality.agreeableness ∧ personality.agreeableness ≤ 1)
      ∨ ¬ (0 ≤ personality.conscientiousness ∧ personality.conscientiousness ≤ 1)
      ∨ ¬ (0 ≤ personality.extroversion ∧ personality.extroversion ≤ 1)
      ∨ ¬ (0 ≤ personality.neuroticism ∧ personality.neuroticism ≤ 1)
      ∨ ¬ (0 ≤ personality.openess ∧ personality.openess ≤ 1) then
    (PersonalityResult.errorsOut (big_five_dict personality) "Value not between 0 and 1", db)
  else
    let db2 := personality_create db (big_five_dict personality) freshId
    (personality_get_single db2 freshId 0 "", db2)

/-- AppearanceServiceMongoDB.save_appearance_somatotype. -/
def save_appearance_somatotype (db : Db) (appearance : AppearanceSomatotypeIn)
    (freshId : String) : AppearanceResult × Db :=
  if ¬ (1 ≤ appearance.ectomorph ∧ appearance.ectomorph ≤ 7)
      ∨ ¬ (1 ≤ appearance.endomorph ∧ appearance.endomorph ≤ 7)
      ∨ ¬ (1 ≤ appearance.mesomorph ∧ appearance.mesomorph ≤ 7) then
    (AppearanceResult.errorsOut (somatotype_dict appearance) "Scale range not between 1 and 7", db)
  else
    let db2 := appearance_create db (somatotype_dict appearance) freshId
    (appearance_get_single db2 freshId 0 "", db2)

/-- PersonalityServiceMongoDB.update_personality_big_five: range guard, then
get_personality — returned unchanged when NotFound, mapped to the
"Node not found." NotFoundByIdModel when the stored document is Panas-shaped;
otherwise update_document replaces the fields and the document is re-read. -/
def update_personality_big_five (db : Db) (personality_id : String)
    (personality : PersonalityBigFiveIn) : PersonalityResult × Db :=
  if ¬ (0 ≤ personality.agreeableness ∧ personality.agreeableness ≤ 1)
      ∨ ¬ (0 ≤ personality.conscientiousness ∧ personality.conscientiousness ≤ 1)
      ∨ ¬ (0 ≤ personality.extroversion ∧ personality.extroversion ≤ 1)
      ∨ ¬ (0 ≤ personality.neuroticism ∧ personality.neuroticism ≤ 1)
      ∨ ¬ (0 ≤ personality.openess ∧ personality.openess ≤ 1) then
    (PersonalityResult.errorsOut (big_five_dict personality) "Value not between 0 and 1", db)
  else
    match personality_get_single db personality_id 0 "" with
    | PersonalityResult.notFoundModel i e => (PersonalityResult.notFoundModel i e, db)
    | PersonalityResult.panasOut _ =>
      (PersonalityResult.notFoundModel personality_id "Node not found.", db)
    | _ =>
      let db2 := personality_replace_document db personality_id (big_five_dict personality)
      (personality_get_single db2 personality_id 0 "", db2)

/-- AppearanceServiceMongoDB.update_appearance_somatotype. -/
def update_appearance_somatotype (db : Db) (appearance_id : String)
    (appearance : AppearanceSomatotypeIn) : AppearanceResult × Db :=
  if ¬ (1 ≤ appearance.ectomorph ∧ appearance.ectomorph ≤ 7)
      ∨ ¬ (1 ≤ appearance.endomorph ∧ appearance.endomorph ≤ 7)
      ∨ ¬ (1 ≤ appearance.mesomorph ∧ appearance.mesomorph ≤ 7) then
    (AppearanceResult.errorsOut (somatotype_dict appearance) "Scale range not between 1 and 7", db)
  else
    match appearance_get_single db appearance_id 0 "" with
    | AppearanceResult.notFoundModel i e => (AppearanceResult.notFoundModel i e, db)
    | AppearanceResult.occlusionOut _ =>
      (AppearanceResult.notFoundModel appearance_id "Node not found.", db)
    | _ =>
      let db2 := appearance_replace_document db appearance_id (somatotype_dict appearance)
      (appearance_get_single db2 appearance_id 0 "", db2)

/-- The big-five validation guard is off exactly on in-range input. -/
theorem big_five_guard_false (p : PersonalityBigFiveIn) (h : bigFiveInRange p) :
    ¬ (¬ (0 ≤ p.agreeableness ∧ p.agreeableness ≤ 1)
      ∨ ¬ (0 ≤ p.conscientiousness ∧ p.conscientiousness ≤ 1)
      ∨ ¬ (0 ≤ p.extroversion ∧ p.extroversion ≤ 1)
      ∨ ¬ (0 ≤ p.neuroticism ∧ p.neuroticism ≤ 1)
      ∨ ¬ (0 ≤ p.openess ∧ p.openess ≤ 1)) := by
  unfold bigFiveInRange at h
  tauto

/-- The somatotype validation guard is off exactly on in-range input. -/
theorem somatotype_guard_false (a : AppearanceSomatotypeIn) (h : somatotypeInRange a) :
    ¬ (¬ (1 ≤ a.ectomorph ∧ a.ectomorph ≤ 7)
      ∨ ¬ (1 ≤ a.endomorph ∧ a.endomorph ≤ 7)
      ∨ ¬ (1 ≤ a.mesomorph ∧ a.mesomorph ≤ 7)) := by
  unfold somatotypeInRange at h
  tauto

/-- In-range big-five save: the guard is skipped and mixin create runs. -/
theorem save_big_five_in_range (db : Db) (p : PersonalityBigFiveIn) (freshId : String)
    (h : bigFiveInRange p) :
    save_personality_big_five db p freshId
      = (personality_get_single (personality_create db (big_five_dict p) freshId) freshId 0 "",
         personality_create db (big_five_dict p) freshId) := by
  unfold save_personality_big_five
  rw [if_neg (big_five_guard_false p h)]

/-- Out-of-range big-five save: the errors out object, no store write. -/
theorem save_big_five_out_of_range (db : Db) (p : PersonalityBigFiveIn) (freshId : String)
    (h : ¬ bigFiveInRange p) :
    save_personality_big_five db p freshId
      = (PersonalityResult.errorsOut (big_five_dict p) "Value not between 0 and 1", db) := by
  unfold save_personality_big_five
  rw [if_pos (by unfold bigFiveInRange at h; tauto)]

/-- In-range somatotype save. -/
theorem save_somatotype_in_range (db : Db) (a : AppearanceSomatotypeIn) (freshId : String)
    (h : somatotypeInRange a) :
    save_appearance_somatotype db a freshId
      = (appearance_get_single (appearance_create db (somatotype_dict a) freshId) freshId 0 "",
         appearance_create db (somatotype_dict a) freshId) := by
  unfold save_appearance_somatotype
  rw [if_neg (somatotype_guard_false a h)]

/-- Out-of-range somatotype save. -/
theorem save_somatotype_out_of_range (db : Db) (a : AppearanceSomatotypeIn) (freshId : String)
    (h : ¬ somatotypeInRange a) :
    save_appearance_somatotype db a freshId
      = (AppearanceResult.errorsOut (somatotype_dict a) "Scale range not between 1 and 7", db) := by
  unfold save_appearance_somatotype
  rw [if_pos (by unfold somatotypeInRange at h; tauto)]

/-- Out-of-range big-five update: rejected before any read or write. -/
theorem update_big_five_out_of_range (db : Db) (pid : String) (p : PersonalityBigFiveIn)
    (h : ¬ bigFiveInRange p) :
    update_personality_big_five db pid p
      = (PersonalityResult.errorsOut (big_five_dict p) "Value not between 0 and 1", db) := by
  unfold update_personality_big_five
  rw [if_pos (by unfold bigFiveInRange at h; tauto)]

/-- Out-of-range somatotype update: rejected before any read or write. -/
theorem update_somatotype_out_of_range (db : Db) (aid : String) (a : AppearanceSomatotypeIn)
    (h : ¬ somatotypeInRange a) :
    update_appearance_somatotype db aid a
      = (AppearanceResult.errorsOut (somatotype_dict a) "Scale range not between 1 and 7", db) := by
  unfold update_appearance_somatotype
  rw [if_pos (by unfold somatotypeInRange at h; tauto)]

/-- C7: a big-five save writes to the personality collection iff every trait
field lies in the closed range [0, 1], and a somatotype save writes iff every
scale field lies in the closed range [1, 7]: values exactly at the bounds are
accepted, while any out-of-range input makes save and update return the out
object with the errors message populated (no exception) and leaves the store
untouched. -/
theorem C7_validation_closed_ranges (db : Db) (p : PersonalityBigFiveIn)
    (a : AppearanceSomatotypeIn) (freshId pid aid : String) :
    (bigFiveInRange p ↔
      (save_personality_big_five db p freshId).2.personalities
        = db.personalities ++ [big_five_dict p ++ [("id", Val.str freshId)]]) ∧
    (¬ bigFiveInRange p →
      save_personality_big_five db p freshId
        = (PersonalityResult.errorsOut (big_five_dict p) "Value not between 0 and 1", db)) ∧
    (somatotypeInRange a ↔
      (save_appearance_somatotype db a freshId).2.appearances
        = db.appearances ++ [somatotype_dict a ++ [("id", Val.str freshId)]]) ∧
    (¬ somatotypeInRange a →
      save_appearance_somatotype db a freshId
        = (AppearanceResult.errorsOut (somatotype_dict a) "Scale range not between 1 and 7", db)) ∧
    (¬ bigFiveInRange p →
      update_personality_big_five db pid p
        = (PersonalityResult.errorsOut (big_five_dict p) "Value not between 0 and 1", db)) ∧
    (¬ somatotypeInRange a →
      update_appearance_somatotype db aid a
        = (AppearanceResult.errorsOut (somatotype_dict a) "Scale range not between 1 and 7", db)) := by
  refine ⟨⟨fun h => ?_, fun hw => ?_⟩, fun h => save_big_five_out_of_range db p freshId h,
    ⟨fun h => ?_, fun hw => ?_⟩, fun h => save_somatotype_out_of_range db a freshId h,
    fun h => update_big_five_out_of_range db pid p h,
    fun h => update_somatotype_out_of_range db aid a h⟩
  · rw [save_big_five_in_range db p freshId h]
    simp [personality_create]
  · by_contra hn
    rw [save_big_five_out_of_range db p freshId hn] at hw
    simp at hw
  · rw [save_somatotype_in_range db a freshId h]
    simp [appearance_create]
  · by_contra hn
    rw [save_somatotype_out_of_range db a freshId hn] at hw
    simp at hw

/-- C7 witness: the bound values 0 and 1 pass the big-five guard and write,
openess = 1001/1000 is rejected without a write; the bound values 1 and 7 pass
the somatotype guard, mesomorph = 999/1000 is rejected without a write; the
same out-of-range inputs are rejected by the updates. -/
theorem C7_validation_closed_ranges_witness :
    (save_personality_big_five {} ⟨0, 1, 0, 1, 0⟩ "p1").2.personalities
      = [big_five_dict ⟨0, 1, 0, 1, 0⟩ ++ [("id", Val.str "p1")]] ∧
    save_personality_big_five {} ⟨0, 1, 0, 1, 1001/1000⟩ "p1"
      = (PersonalityResult.errorsOut (big_five_dict ⟨0, 1, 0, 1, 1001/1000⟩)
          "Value not between 0 and 1", {}) ∧
    (save_appearance_somatotype {} ⟨1, 7, 4⟩ "a1").2.appearances
      = [somatotype_dict ⟨1, 7, 4⟩ ++ [("id", Val.str "a1")]] ∧
    save_appearance_somatotype {} ⟨1, 7, 999/1000⟩ "a1"
      = (AppearanceResult.errorsOut (somatotype_dict ⟨1, 7, 999/1000⟩)
          "Scale range not between 1 and 7", {}) ∧
    update_personality_big_five {} "p1" ⟨0, 1, 0, 1, 1001/1000⟩
      = (PersonalityResult.errorsOut (big_five_dict ⟨0, 1, 0, 1, 1001/1000⟩)
          "Value not between 0 and 1", {}) ∧
    update_appearance_somatotype {} "a1" ⟨1, 7, 999/1000⟩
      = (AppearanceResult.errorsOut (somatotype_dict ⟨1, 7, 999/1000⟩)
          "Scale range not between 1 and 7", {}) := by
  have h1 := C7_validation_closed_ranges {} ⟨0, 1, 0, 1, 0⟩ ⟨1, 7, 4⟩ "p1" "x" "y"
  have h1b := C7_validation_closed_ranges {} ⟨0, 1, 0, 1, 0⟩ ⟨1, 7, 4⟩ "a1" "x" "y"
  have h2 := C7_validation_closed_ranges {} ⟨0, 1, 0, 1, 1001/1000⟩ ⟨1, 7, 999/1000⟩ "p1" "p1" "a1"
  have h3 := C7_validation_closed_ranges {} ⟨0, 1, 0, 1, 1001/1000⟩ ⟨1, 7, 999/1000⟩ "a1" "p1" "a1"
  exact ⟨h1.1.mp (by norm_num [bigFiveInRange]),
    h2.2.1 (by norm_num [bigFiveInRange]),
    h1b.2.2.1.mp (by norm_num [somatotypeInRange]),
    h3.2.2.2.1 (by norm_num [somatotypeInRange]),
    h2.2.2.2.2.1 (by norm_num [bigFiveInRange]),
    h2.2.2.2.2.2 (by norm_num [somatotypeInRange])⟩

/-- Found personality read at depth 0: the raw stored document, wrapped by the
negative_affect dispatch. -/
theorem personality_get_single_found (db : Db) (pid : String) (d : Doc)
    (hd : findById db.personalities pid = some d) :
    personality_get_single db pid 0 ""
      = if d.hasKey "negative_affect" then PersonalityResult.panasOut d
        else PersonalityResult.bigFiveOut d := by
  unfold personality_get_single personality_get_single_dict
  rw [hd]
  simp [personality_add_related_documents, Val.getDoc]

/-- Found appearance read at depth 0, wrapped by the glasses dispatch. -/
theorem appearance_get_single_found (db : Db) (aid : String) (e : Doc)
    (he : findById db.appearances aid = some e) :
    appearance_get_single db aid 0 ""
      = if e.hasKey "glasses" then AppearanceResult.occlusionOut e
        else AppearanceResult.somatotypeOut e := by
  unfold appearance_get_single appearance_get_single_dict
  rw [he]
  simp [appearance_add_related_documents, Val.getDoc]

/-- C8: in the shared personality and appearance collections the sub-kind of a
stored document is picked by the presence of negative_affect (Panas) and
glasses (Occlusion), and a big-five update of a Panas-shaped document — like a
somatotype update of an Occlusion-shaped document — returns the
"Node not found." NotFoundByIdModel and leaves the store unchanged. -/
theorem C8_subkind_discrimination (db : Db) (pid aid : String)
    (p : PersonalityBigFiveIn) (a : AppearanceSomatotypeIn) (d e : Doc)
    (hp : bigFiveInRange p) (ha : somatotypeInRange a)
    (hd : findById db.personalities pid = some d)
    (he : findById db.appearances aid = some e) :
    (d.hasKey "negative_affect" = true →
      personality_get_single db pid 0 "" = PersonalityResult.panasOut d ∧
      update_personality_big_five db pid p
        = (PersonalityResult.notFoundModel pid "Node not found.", db)) ∧
    (d.hasKey "negative_affect" = false →
      personality_get_single db pid 0 "" = PersonalityResult.bigFiveOut d) ∧
    (e.hasKey "glasses" = true →
      appearance_get_single db aid 0 "" = AppearanceResult.occlusionOut e ∧
      update_appearance_somatotype db aid a
        = (AppearanceResult.notFoundModel aid "Node not found.", db)) ∧
    (e.hasKey "glasses" = false →
      appearance_get_single db aid 0 "" = AppearanceResult.somatotypeOut e) := by
  have hg := personality_get_single_found db pid d hd
  have hg2 := appearance_get_single_found db aid e he
  refine ⟨fun hneg => ?_, fun hneg => ?_, fun hgl => ?_, fun hgl => ?_⟩
  · have h1 : personality_get_single db pid 0 "" = PersonalityResult.panasOut d := by
      rw [hg, if_pos hneg]
    refine ⟨h1, ?_⟩
    unfold update_personality_big_five
    rw [if_neg (big_five_guard_false p hp), h1]
  · rw [hg, if_neg (by simp [hneg])]
  · have h1 : appearance_get_single db aid 0 "" = AppearanceResult.occlusionOut e := by
      rw [hg2, if_pos hgl]
    refine ⟨h1, ?_⟩
    unfold update_appearance_somatotype
    rw [if_neg (somatotype_guard_false a ha), h1]
  · rw [hg2, if_neg (by simp [hgl])]

/-- Stored Panas-shaped personality document fixture. -/
def c8Panas : Doc :=
  [("negative_affect", Val.num 1), ("positive_affect", Val.num 0),
   ("additional_properties", Val.null), ("id", Val.str "pp")]

/-- Stored BigFive-shaped personality document fixture. -/
def c8BigFive : Doc :=
  [("agreeableness", Val.num 1), ("conscientiousness", Val.num 1),
   ("extroversion", Val.num 1), ("neuroticism", Val.num 1),
   ("openess", Val.num 1), ("id", Val.str "pb")]

/-- Stored Occlusion-shaped appearance document fixture. -/
def c8Occlusion : Doc :=
  [("glasses", Val.bool true), ("beard", Val.str "no"),
   ("moustache", Val.str "no"), ("id", Val.str "ao")]

/-- Stored Somatotype-shaped appearance document fixture. -/
def c8Somatotype : Doc :=
  [("ectomorph", Val.num 4), ("endomorph", Val.num 4),
   ("mesomorph", Val.num 4), ("id", Val.str "as")]

/-- Store fixture with both sub-kinds in each shared collection. -/
def c8Db : Db :=
  { personalities := [c8Panas, c8BigFive],
    appearances := [c8Occlusion, c8Somatotype] }

/-- C8 witness: on a store holding both sub-kinds, the reads pick the matching
out shape and the cross-sub-kind updates return the "Node not found."
sentinel with the store unchanged. -/
theorem C8_subkind_discrimination_witness :
    (personality_get_single c8Db "pp" 0 "" = PersonalityResult.panasOut c8Panas ∧
      update_personality_big_five c8Db "pp" ⟨0, 1, 0, 1, 0⟩
        = (PersonalityResult.notFoundModel "pp" "Node not found.", c8Db)) ∧
    personality_get_single c8Db "pb" 0 "" = PersonalityResult.bigFiveOut c8BigFive ∧
    (appearance_get_single c8Db "ao" 0 "" = AppearanceResult.occlusionOut c8Occlusion ∧
      update_appearance_somatotype c8Db "ao" ⟨1, 7, 4⟩
        = (AppearanceResult.notFoundModel "ao" "Node not found.", c8Db)) ∧
    appearance_get_single c8Db "as" 0 "" = AppearanceResult.somatotypeOut c8Somatotype := by
  have h1 := C8_subkind_discrimination c8Db "pp" "ao" ⟨0, 1, 0, 1, 0⟩ ⟨1, 7, 4⟩ c8Panas c8Occlusion
    (by norm_num [bigFiveInRange]) (by norm_num [somatotypeInRange]) rfl rfl
  have h2 := C8_subkind_discrimination c8Db "pb" "as" ⟨0, 1, 0, 1, 0⟩ ⟨1, 7, 4⟩ c8BigFive c8Somatotype
    (by norm_num [bigFiveInRange]) (by norm_num [somatotypeInRange]) rfl rfl
  exact ⟨h1.1 rfl, h2.2.1 rfl, h1.2.2.1 rfl, h2.2.2.2 rfl⟩

/-! ### Generic mixin delete (recording service instance) -/

/-- GenericMongoServiceMixin.get_single for the recording service:
RecordingOut(**result) is modelled by the dict itself and the
NotFoundByIdModel sentinel by the nf value, so the mixin get_single returns
the dict read unchanged (defaults depth = 0, source = ""). -/
def recording_get_single (db : Db) (id : String) (depth : Int) (source : String) : Val :=
  recording_get_single_dict db id depth source

/-- MongoApiService.delete_document on a recording entity: the entity carries
an id field (the TypeError guard does not fire), the collection is resolved
from its class and delete_one removes the first document with that _id. -/
def delete_document_recording (db : Db) (entity : Doc) : Db :=
  { db with recordings := db.recordings.eraseP (fun r => r.fget "id" == entity.fget "id") }

/-- GenericMongoServiceMixin.delete for the recording service. get_single
never returns None — it returns the out model or the NotFoundByIdModel
sentinel — so the `existing_document is None` check guarding the NotFound
return is dead code; the sentinel flows into delete_document, where
get_collection_name finds no superclass of NotFoundByIdModel in
SUPERCLASSES_TO_COLLECTION_NAMES and raises ValueError (the error case). -/
def mixin_delete_recording (db : Db) (id : String) : Except String (Val × Db) :=
  let existing_document := recording_get_single db id 0 ""
  match existing_document with
  | Val.nf _ => .error "ValueError: NotFoundByIdModel class is not subclass of any model"
  | entity => .ok (entity, delete_document_recording db entity.getDoc)

/-- C6: the generic delete never returns the NotFound sentinel for a missing
id — the dead None-check is skipped, the sentinel reaches delete_document and
get_collection_name raises ValueError; for an existing id the document is
removed and its last state returned. -/
theorem C6_delete_missing_id_raises (db : Db) (id : String) :
    (findById db.recordings id = none →
      mixin_delete_recording db id
        = .error "ValueError: NotFoundByIdModel class is not subclass of any model") ∧
    (∀ d, findById db.recordings id = some d →
      mixin_delete_recording db id = .ok (Val.doc d, delete_document_recording db d)) := by
  constructor
  · intro h
    unfold mixin_delete_recording recording_get_single recording_get_single_dict
    rw [h]
  · intro d h
    unfold mixin_delete_recording recording_get_single recording_get_single_dict
    rw [h]
    simp [recording_add_related_documents, Val.getDoc]

/-- C6 witness: deleting a well-formed but absent id on the example store
raises the ValueError instead of returning the NotFound sentinel, and deleting
an existing id removes the document and returns it. -/
theorem C6_delete_missing_id_raises_witness :
    mixin_delete_recording exDb "ffffffffffffffffffffffff"
      = .error "ValueError: NotFoundByIdModel class is not subclass of any model" ∧
    mixin_delete_recording exDb "r1"
      = .ok (Val.doc exRecording, delete_document_recording exDb exRecording) := by
  exact ⟨(C6_delete_missing_id_raises exDb "ffffffffffffffffffffffff").1 rfl,
    (C6_delete_missing_id_raises exDb "r1").2 exRecording rfl⟩

/-! ### Filtered time-series query (metadata graph joins) -/

/-- Python `entity, property = key.split("_")`: the two-way unpack succeeds
exactly when the key holds exactly one underscore, and raises ValueError
otherwise. -/
def split_entity_property (key : String) : Except String (String × String) :=
  if key.data.countP (fun c => c == '_') = 1 then
    Except.ok (⟨key.data.takeWhile (fun c => !(c == '_'))⟩,
      ⟨(key.data.dropWhile (fun c => !(c == '_'))).drop 1⟩)
  else Except.error "ValueError: not enough values to unpack"

/-- Python dict assignment on a string-valued params dict (replace the value
in place when the property is present, else append). -/
def paramSet (d : List (String × String)) (k v : String) : List (String × String) :=
  if d.any (fun p => p.1 == k) then d.map (fun p => if p.1 == k then (k, v) else p)
  else d ++ [(k, v)]

/-- The four per-kind parameter dicts _get_many_ts_filtered builds. -/
structure TsParams : Type where
  recording_params : List (String × String) := []
  participant_state_params : List (String × String) := []
  participant_params : List (String × String) := []
  experiment_params : List (String × String) := []
  deriving Repr, DecidableEq

/-- The partition loop of _get_many_ts_filtered: each key is split into
entity and property and the pair routed to the dict of its entity kind; keys
of unrecognized kinds are dropped. -/
def partition_ts_params : List (String × String) → TsParams → Except String TsParams
  | [], acc => Except.ok acc
  | (key, value) :: rest, acc =>
    match split_entity_property key with
    | Except.error e => Except.error e
    | Except.ok (entity, property) =>
      let acc :=
        if entity == "recording" then
          { acc with recording_params := paramSet acc.recording_params property value }
        else if entity == "participantstate" then
          { acc with participant_state_params :=
              paramSet acc.participant_state_params property value }
        else if entity == "participant" then
          { acc with participant_params := paramSet acc.participant_params property value }
        else if entity == "experiment" then
          { acc with experiment_params := paramSet acc.experiment_params property value }
        else acc
      partition_ts_params rest acc

/-- The three graph-join aggregation pipelines (_get_ts_by_recording,
_get_ts_by_pariticipant, _get_ts_by_experiment) run inside MongoDB; this
oracle abstracts them as maps from the per-kind match parameters to the
matching time-series id lists (the participant pipeline takes the
participant-state and participant dicts together). -/
structure TsAggregations : Type where
  byRecording : List (String × String) → List String
  byParticipant : List (String × String) → List (String × String) → List String
  byExperiment : List (String × String) → List String

/-- MongoApiService._get_many_ts_filtered: partition the query parameters by
entity kind, run one aggregation per represented kind, return None when no
kind is represented, else intersect the per-kind id lists (Python builds
sets; modelled as a first-seen-order dedup and successive membership
filters). -/
def _get_many_ts_filtered (agg : TsAggregations)
    (query_params : List (String × String)) : Except String (Option (List String)) :=
  match partition_ts_params query_params {} with
  | Except.error e => Except.error e
  | Except.ok pp =>
    let ts_by_recording : Option (List String) :=
      if pp.recording_params ≠ [] then some (agg.byRecording pp.recording_params) else none
    let ts_by_participant : Option (List String) :=
      if pp.participant_state_params ≠ [] ∨ pp.participant_params ≠ [] then
        some (agg.byParticipant pp.participant_state_params pp.participant_params)
      else none
    let ts_by_experiment : Option (List String) :=
      if pp.experiment_params ≠ [] then some (agg.byExperiment pp.experiment_params) else none
    match [ts_by_recording, ts_by_participant, ts_by_experiment].filterMap id with
    | [] => Except.ok none
    | l0 :: rest =>
      Except.ok (some (rest.foldl (fun acc l => acc.filter (fun x => l.contains x)) l0.dedup))

/-- MongoApiService.get_many_time_series: with truthy query_params the id
filter from _get_many_ts_filtered is applied as a metadata.id $in query, its
None meaning no filter at all (the query replaced by the empty document —
full scan); otherwise the given query runs directly (the input-id conversion
is the identity in the string-form store model). -/
def get_many_time_series (db : Db) (agg : TsAggregations) (query : Doc)
    (query_params : Option (List (String × String))) : Except String (List Doc) :=
  match query_params with
  | some qp =>
    if qp ≠ [] then
      match _get_many_ts_filtered agg qp with
      | Except.error e => Except.error e
      | Except.ok (some ts_ids) =>
        Except.ok (mongo_get_many_time_series db
          [("metadata.id", Val.arr (ts_ids.map Val.str))])
      | Except.ok none => Except.ok (mongo_get_many_time_series db [])
    else Except.ok (mongo_get_many_time_series db query)
  | none => Except.ok (mongo_get_many_time_series db query)

/-- Membership in the successive-intersection fold: in the start list and in
every intersected list. -/
theorem mem_foldl_inter (rest : List (List String)) (acc : List String) (x : String) :
    (x ∈ rest.foldl (fun acc l => acc.filter (fun y => l.contains y)) acc) ↔
      x ∈ acc ∧ ∀ l ∈ rest, x ∈ l := by
  induction rest generalizing acc with
  | nil => simp
  | cons l rest ih =>
    simp only [List.foldl_cons, ih, List.mem_filter, List.forall_mem_cons]
    simp [List.contains]
    tauto

/-- C4: once the query parameters are partitioned by entity kind, when no
kind is represented _get_many_ts_filtered yields no id filter and
get_many_time_series scans the whole collection; when some kind is
represented it yields exactly the ids lying in the result of every
represented kind's aggregation — the intersection across dimensions (AND
semantics, never union). -/
theorem C4_ts_filter_and_semantics (db : Db) (agg : TsAggregations)
    (qp : List (String × String)) (pp : TsParams)
    (h : partition_ts_params qp {} = Except.ok pp) :
    (pp.recording_params = [] ∧ pp.participant_state_params = [] ∧
        pp.participant_params = [] ∧ pp.experiment_params = [] →
      _get_many_ts_filtered agg qp = Except.ok none ∧
      (qp ≠ [] →
        get_many_time_series db agg [] (some qp)
          = Except.ok (mongo_get_many_time_series db []) ∧
        db.timeSeries.filter (ts_doc_matches []) = db.timeSeries)) ∧
    (¬ (pp.recording_params = [] ∧ pp.participant_state_params = [] ∧
        pp.participant_params = [] ∧ pp.experiment_params = []) →
      ∃ S, _get_many_ts_filtered agg qp = Except.ok (some S) ∧
        ∀ x, x ∈ S ↔
          ((pp.recording_params ≠ [] → x ∈ agg.byRecording pp.recording_params) ∧
           (pp.participant_state_params ≠ [] ∨ pp.participant_params ≠ [] →
             x ∈ agg.byParticipant pp.participant_state_params pp.participant_params) ∧
           (pp.experiment_params ≠ [] → x ∈ agg.byExperiment pp.experiment_params))) := by
  constructor
  · rintro ⟨hr, hps, hpp, hx⟩
    have hf : _get_many_ts_filtered agg qp = Except.ok none := by
      unfold _get_many_ts_filtered
      rw [h]
      simp [hr, hps, hpp, hx]
    refine ⟨hf, fun hq => ⟨?_, ?_⟩⟩
    · simp only [get_many_time_series]
      rw [if_pos hq, hf]
    · simp [ts_doc_matches]
  · intro hne
    unfold _get_many_ts_filtered
    rw [h]
    by_cases h1 : pp.recording_params = [] <;>
      by_cases h2 : pp.participant_state_params = [] <;>
        by_cases h3 : pp.participant_params = [] <;>
          by_cases h4 : pp.experiment_params = []
    all_goals try exact (hne ⟨h1, h2, h3, h4⟩).elim
    all_goals
      (simp only [h1, h2, h3, h4, ne_eq, not_true_eq_false, not_false_eq_true, false_or,
         or_false, or_true, true_or, or_self, if_true, if_false, ite_true, ite_false,
         List.filterMap, id]
       refine ⟨_, rfl, fun x => ?_⟩
       rw [mem_foldl_inter]
       simp [List.mem_dedup, List.contains]
       try tauto)

/-- Constant aggregation oracle fixture. -/
def c4agg : TsAggregations :=
  { byRecording := fun _ => ["t1", "t2"],
    byParticipant := fun _ _ => ["t2", "t3"],
    byExperiment := fun _ => ["t2"] }

/-- Signal document fixture for the full-scan conjunct. -/
def c4signal (ts oi : String) : Doc :=
  [("timestamp", Val.num 0),
   ("metadata", Val.doc [("id", Val.str ts),
     ("observable_information_id", Val.str oi), ("type", Val.str "Timestamp")]),
   ("value", Val.num 1), ("additional_properties", Val.null)]

/-- Store fixture with two one-signal time series. -/
def c4tsDb : Db :=
  { timeSeries := [c4signal "t1" "o1", c4signal "t2" "o2"] }

/-- C4 witness: a parameter of an unrecognized kind applies no id filter —
the whole collection is scanned — while recording and experiment parameters
together intersect their aggregation results, so only t2 survives. -/
theorem C4_ts_filter_and_semantics_witness :
    _get_many_ts_filtered c4agg [("modality_type", "rgb")] = Except.ok none ∧
    get_many_time_series c4tsDb c4agg [] (some [("modality_type", "rgb")])
      = Except.ok (mongo_get_many_time_series c4tsDb []) ∧
    c4tsDb.timeSeries.filter (ts_doc_matches []) = c4tsDb.timeSeries ∧
    _get_many_ts_filtered c4agg [("recording_id", "r1"), ("experiment_name", "e")]
      = Except.ok (some ["t2"]) := by
  have h1 := (C4_ts_filter_and_semantics c4tsDb c4agg [("modality_type", "rgb")] {} rfl).1
    ⟨rfl, rfl, rfl, rfl⟩
  have h2 := h1.2 (by decide)
  obtain ⟨S, hS, hmem⟩ := (C4_ts_filter_and_semantics c4tsDb c4agg
      [("recording_id", "r1"), ("experiment_name", "e")]
      ⟨[("id", "r1")], [], [], [("name", "e")]⟩ rfl).2 (by simp)
  refine ⟨h1.1, h2.1, h2.2, ?_⟩
  rfl

end GriseraSpec
